import Mathlib

/-!
# Gameplay screen of go-goo-getaway (`src/screen_gameplay.cpp`)

A shallow embedding of the gameplay screen: the module state (player, platforms,
camera, win latch, frame counter, finish flag) and the five screen functions
`InitGameplayScreen`, `UpdateGameplayScreen`, `DrawGameplayScreen`,
`UnloadGameplayScreen`, `FinishGameplayScreen`.

Modelling conventions.
* `float` values are rationals (`ℚ`). The functions named as in the source compute in
  exact arithmetic. `UpdateGameplayScreenF` and its parts are the same update with every
  float operation rounded by a rounding function `fl`; `f32` is rounding to IEEE binary32.
  Statements that depend on rounding (free fall, the auto-jump, passing platforms) are
  made about `UpdateGameplayScreenF`.
* `int` values are `Int`; C division and remainder are `Int.tdiv` / `Int.tmod`;
  `framesCounter++` wraps at 32 bits (`wrapInt32`).
* The array `envElements[MAX_ENVIRONMENT_ELEMENTS]` is a list, traversed in index order.
* What the library returns (`GetFrameTime`, `IsKeyDown`, `GetScreenWidth`,
  `GetRandomValue`, `IsMouseButtonPressed`, `LoadTexture`) is an argument of the call.
-/

namespace GooGetaway

/-! ## Constants -/

def MAX_ENVIRONMENT_ELEMENTS : Nat := 3
def gravity : Int := 800
def playerJumpSpeed : Int := 650
def playerRunSpeed : Int := 500
def platformWidth : Int := 100
def screenWidth : Int := 800
def screenHeight : Int := 600

/-! ## Data model -/

structure Vector2 where
  x : ℚ
  y : ℚ
deriving DecidableEq, Repr

structure Rectangle where
  x : ℚ
  y : ℚ
  width : ℚ
  height : ℚ
deriving DecidableEq, Repr

inductive Color where
  | BLANK
  | RAYWHITE
  | GREEN
deriving DecidableEq, Repr

structure Texture2D where
  width : Int
  height : Int
deriving DecidableEq, Repr

structure Player where
  position : Vector2
  speed : ℚ
  canJump : Bool
deriving DecidableEq, Repr

structure EnvElement where
  rect : Rectangle
  blocking : Int
  color : Color
  movingPlatform : Bool
  moveSpeed : ℚ
deriving DecidableEq, Repr

structure Camera2D where
  offset : Vector2
  target : Vector2
  rotation : ℚ
  zoom : ℚ
deriving DecidableEq, Repr

/-- The module variables of the screen. `soundsPlayed` counts the `PlaySound(fxCoin)`
calls made so far (the audio device is outside the file). -/
structure State where
  slime : Texture2D
  showCongratulations : Bool
  framesCounter : Int
  finishScreen : Int
  player : Player
  envElements : List EnvElement
  camera : Camera2D
  soundsPlayed : Nat
deriving DecidableEq, Repr

/-- Zero-initialised element: what static storage holds before `InitGameplayScreen`. -/
def EnvElement.zero : EnvElement :=
  { rect := ⟨0, 0, 0, 0⟩, blocking := 0, color := Color.BLANK, movingPlatform := false,
    moveSpeed := 0 }

/-- The module state at program start (the static initialisers of the file). -/
def State.start : State :=
  { slime := ⟨0, 0⟩, showCongratulations := false, framesCounter := 0, finishScreen := 0,
    player := ⟨⟨0, 0⟩, 0, false⟩,
    envElements := List.replicate MAX_ENVIRONMENT_ELEMENTS EnvElement.zero,
    camera := ⟨⟨0, 0⟩, ⟨0, 0⟩, 0, 0⟩, soundsPlayed := 0 }

/-- Two's-complement wrap of an `int`. -/
def wrapInt32 (n : Int) : Int := (n + 2147483648) % 4294967296 - 2147483648

/-! ## InitGameplayScreen -/

/-- What the library hands to `InitGameplayScreen`. -/
structure InitInput where
  texture : Texture2D
  getScreenWidth : Int
  getScreenHeight : Int
  getRandomValue : Nat → Int → Int → Int

/-- Body of the platform-generation loop for index `i`. -/
def initElement (inp : InitInput) (i : Nat) : EnvElement :=
  let width0 : ℚ := platformWidth
  let x0 : ℚ := inp.getRandomValue i 0 (inp.getScreenWidth - platformWidth)
  let y : ℚ := ((inp.getScreenHeight - (i : Int) * 200 : Int) : ℚ)
  let movingPlatform : Bool := decide (i % 3 = 2)
  let moveSpeed0 : ℚ := 50
  let x1 : ℚ := if i = 0 then 0 else x0
  let width1 : ℚ := if i = 0 then (screenWidth : ℚ) else width0
  let moveSpeed1 : ℚ := if i ≥ 15 then 100 else moveSpeed0
  let moveSpeed2 : ℚ := if i ≥ 30 then 150 else moveSpeed1
  let moveSpeed3 : ℚ := if i ≥ 45 then 200 else moveSpeed2
  let moveSpeed4 : ℚ := if i ≥ 60 then 300 else moveSpeed3
  let last : Bool := decide (i = MAX_ENVIRONMENT_ELEMENTS - 1)
  { rect := { x := if last then 0 else x1
              y := y
              width := if last then (screenWidth : ℚ) else width1
              height := 25 }
    blocking := 1
    color := if last then Color.GREEN else Color.RAYWHITE
    movingPlatform := movingPlatform
    moveSpeed := moveSpeed4 }

/-- One call of `InitGameplayScreen`: it writes the sprite, the player, the elements and
the camera, and no other module variable. -/
def InitGameplayScreen (inp : InitInput) (s : State) : State :=
  let player : Player := { position := ⟨400, 280⟩, speed := 0, canJump := false }
  { s with
    slime := inp.texture
    player := player
    envElements := (List.range MAX_ENVIRONMENT_ELEMENTS).map (initElement inp)
    camera := { target := ⟨player.position.x, player.position.y⟩
                offset := ⟨(inp.getScreenWidth : ℚ) / 2, (inp.getScreenHeight : ℚ) / 2⟩
                rotation := 0
                zoom := 1 } }

/-! ## UpdateGameplayScreen -/

/-- What the library reports during one `UpdateGameplayScreen` call. -/
structure FrameInput where
  /-- Value of `IsKeyDown(KEY_LEFT) || IsKeyDown(KEY_A)`. -/
  left : Bool
  /-- Value of `IsKeyDown(KEY_RIGHT) || IsKeyDown(KEY_D)`. -/
  right : Bool
  /-- Value of `GetFrameTime()`. -/
  dt : ℚ
  /-- Value of `GetScreenWidth()`. -/
  getScreenWidth : Int

/-- The left-key step (source comment: Move left). -/
def moveLeft (inp : FrameInput) (x : ℚ) : ℚ :=
  if inp.left = true ∧ x - playerRunSpeed * inp.dt > 0 then x - playerRunSpeed * inp.dt else x

/-- The right-key step (source comment: Move right). -/
def moveRight (inp : FrameInput) (x : ℚ) : ℚ :=
  if inp.right = true ∧ x + playerRunSpeed * inp.dt < inp.getScreenWidth then
    x + playerRunSpeed * inp.dt
  else x

/-- Condition of the standing check for one element, player at `(x, y)` with `speed`. -/
def standingTest (dt x y speed : ℚ) (e : EnvElement) : Bool :=
  decide (e.blocking ≠ 0 ∧ e.rect.x ≤ x ∧ e.rect.x + e.rect.width ≥ x ∧
    e.rect.y = y + speed * dt)

/-- The standing loop: set the flag at the first element that passes, then `break`. -/
def standingOnPlatform (dt x y speed : ℚ) : List EnvElement → Bool
  | [] => false
  | e :: es => if standingTest dt x y speed e then true else standingOnPlatform dt x y speed es

/-- Condition of the collision check for one element, player at `(x, y)` with `speed`. -/
def landingTest (dt x y speed : ℚ) (e : EnvElement) : Bool :=
  decide (e.blocking ≠ 0 ∧ e.rect.x ≤ x ∧ e.rect.x + e.rect.width ≥ x ∧
    e.rect.y ≥ y ∧ e.rect.y ≤ y + speed * dt)

/-- The variables the collision loop reads and writes. -/
structure Collision where
  hitObstacle : Bool
  speed : ℚ
  y : ℚ
deriving DecidableEq, Repr

/-- One iteration of the collision loop. -/
def collisionStep (dt x : ℚ) (c : Collision) (e : EnvElement) : Collision :=
  if landingTest dt x c.y c.speed e then
    { hitObstacle := true, speed := 0, y := e.rect.y }
  else c

/-- The collision loop over the elements in index order. -/
def collisionLoop (dt x : ℚ) : Collision → List EnvElement → Collision
  | c, [] => c
  | c, e :: es => collisionLoop dt x (collisionStep dt x c e) es

/-- The elements at which the collision loop took its `if` branch, in index order
(a trace of the loop; the code itself keeps only the flag). -/
def collisionHits (dt x : ℚ) : Collision → List EnvElement → List EnvElement
  | _, [] => []
  | c, e :: es =>
    if landingTest dt x c.y c.speed e then e :: collisionHits dt x (collisionStep dt x c e) es
    else collisionHits dt x (collisionStep dt x c e) es

/-- One iteration of the moving-platform loop. -/
def movePlatform (inp : FrameInput) (e : EnvElement) : EnvElement :=
  if e.movingPlatform = true then
    let x := e.rect.x + e.moveSpeed * inp.dt
    let e1 : EnvElement := { e with rect := { e.rect with x := x } }
    if x ≤ 0 ∨ x + e1.rect.width ≥ inp.getScreenWidth then
      { e1 with moveSpeed := -e1.moveSpeed }
    else e1
  else e

/-- Player x after the two key checks. -/
def xAfterKeys (s : State) (inp : FrameInput) : ℚ :=
  moveRight inp (moveLeft inp s.player.position.x)

/-- Player speed after the standing check. -/
def speedAfterStanding (s : State) (inp : FrameInput) : ℚ :=
  if standingOnPlatform inp.dt (xAfterKeys s inp) s.player.position.y s.player.speed
      s.envElements then
    -(playerJumpSpeed : ℚ)
  else s.player.speed

/-- The collision-loop variables on entry to the loop. -/
def collisionEntry (s : State) (inp : FrameInput) : Collision :=
  { hitObstacle := false, speed := speedAfterStanding s inp, y := s.player.position.y }

/-- One call of `UpdateGameplayScreen`: key steps, standing check, collision loop,
fall-or-land step, moving platforms, camera, frame counter; all skipped when
`showCongratulations` is set. The standing branch also clears `canJump`, which the
fall-or-land step overwrites in both of its branches. `PlaySound` is counted in
`soundsPlayed`. -/
def UpdateGameplayScreen (inp : FrameInput) (s : State) : State :=
  if s.showCongratulations = false then
    let x := xAfterKeys s inp
    let c := collisionLoop inp.dt x (collisionEntry s inp) s.envElements
    let player : Player :=
      if c.hitObstacle = false then
        { position := ⟨x, c.y + c.speed * inp.dt⟩
          speed := c.speed + gravity * inp.dt
          canJump := false }
      else
        { position := ⟨x, c.y⟩, speed := c.speed, canJump := true }
    { s with
      player := player
      soundsPlayed := if c.hitObstacle = false then s.soundsPlayed else s.soundsPlayed + 1
      envElements := s.envElements.map (movePlatform inp)
      camera := { s.camera with target := { s.camera.target with y := player.position.y } }
      framesCounter := wrapInt32 (s.framesCounter + 1) }
  else s

/-! ## DrawGameplayScreen, UnloadGameplayScreen, FinishGameplayScreen -/

/-- What the library reports during one `DrawGameplayScreen` call. -/
structure DrawInput where
  /-- Value of `IsMouseButtonPressed(MOUSE_LEFT_BUTTON)`. -/
  mousePressed : Bool

/-- The time text drawn by one `DrawGameplayScreen` call: the two `%02d` arguments of
the dialog, or of the corner readout. -/
inductive TimeText where
  | dialog (minutes seconds : Int)
  | corner (minutes seconds : Int)
deriving DecidableEq, Repr

/-- The overlap test of the player's sprite box against the winning platform. -/
def touchesWinningPlatform (s : State) : Bool :=
  let winningPlatform := s.envElements.getD (MAX_ENVIRONMENT_ELEMENTS - 1) EnvElement.zero
  let playerPos := s.player.position
  decide (winningPlatform.rect.x ≤ playerPos.x + ((s.slime.width.tdiv 2 : Int) : ℚ) ∧
    winningPlatform.rect.x + winningPlatform.rect.width ≥
      playerPos.x - ((s.slime.width.tdiv 2 : Int) : ℚ) ∧
    winningPlatform.rect.y ≤ playerPos.y + ((s.slime.height.tdiv 2 : Int) : ℚ) ∧
    winningPlatform.rect.y + winningPlatform.rect.height ≥
      playerPos.y - ((s.slime.height.tdiv 2 : Int) : ℚ))

/-- The module state after one `DrawGameplayScreen` call, and the time text it drew. -/
def DrawGameplayScreen (inp : DrawInput) (s : State) : State × TimeText :=
  let s1 : State := if touchesWinningPlatform s then { s with showCongratulations := true } else s
  if s1.showCongratulations then
    let timerValue := s1.framesCounter.tdiv 60
    let s2 : State := if inp.mousePressed then { s1 with finishScreen := 1 } else s1
    (s2, TimeText.dialog (timerValue.tdiv 60) (timerValue.tmod 60))
  else
    let timerValue := s1.framesCounter.tdiv 60
    (s1, TimeText.corner (timerValue.tdiv 60) (timerValue.tmod 60))

/-- One call of `UnloadGameplayScreen`: it releases the texture and writes no module
variable. -/
def UnloadGameplayScreen (s : State) : State := s

/-- The value `FinishGameplayScreen` returns. -/
def FinishGameplayScreen (s : State) : Int := s.finishScreen

/-! ## Call sequences -/

/-- One call the host makes on the screen. -/
inductive Call where
  | init (inp : InitInput)
  | update (inp : FrameInput)
  | draw (inp : DrawInput)
  | unload

def Call.run : Call → State → State
  | Call.init inp, s => InitGameplayScreen inp s
  | Call.update inp, s => UpdateGameplayScreen inp s
  | Call.draw inp, s => (DrawGameplayScreen inp s).1
  | Call.unload, s => UnloadGameplayScreen s

/-- The state after a sequence of calls, first call first. -/
def runCalls : State → List Call → State
  | s, [] => s
  | s, c :: cs => runCalls (c.run s) cs

/-- The state after a sequence of `UpdateGameplayScreen` calls, first call first. -/
def runUpdates : State → List FrameInput → State
  | s, [] => s
  | s, inp :: inps => runUpdates (UpdateGameplayScreen inp s) inps

/-! ## Sample inputs -/

/-- An 800x600 window, a 32x32 sprite, and a generator that returns the middle of the
requested range. -/
def sampleInit : InitInput :=
  { texture := ⟨32, 32⟩, getScreenWidth := 800, getScreenHeight := 600,
    getRandomValue := fun _ lo hi => (lo + hi) / 2 }

/-- The state after `InitGameplayScreen` at program start. -/
def sampleState : State := InitGameplayScreen sampleInit State.start

/-- A 60 FPS frame with no key held. -/
def idleFrame : FrameInput := { left := false, right := false, dt := 1 / 60, getScreenWidth := 800 }

/-- A 60 FPS frame with the right key held. -/
def rightFrame : FrameInput := { left := false, right := true, dt := 1 / 60, getScreenWidth := 800 }

/-- A frame of 0.8 s with the left key held. -/
def longLeftFrame : FrameInput :=
  { left := true, right := false, dt := 4 / 5, getScreenWidth := 800 }

/-- The sample layout with the player falling at 900 px/s, 10 px above the floor. -/
def aboveFloorState : State :=
  { sampleState with player := { position := ⟨400, 590⟩, speed := 900, canJump := false } }

/-- The sample layout with the player standing on the winning platform, latch not yet set. -/
def onWinState : State :=
  { sampleState with player := { position := ⟨400, 200⟩, speed := 0, canJump := true } }

/-- The sample layout after the win has been latched at frame 7325. -/
def wonState : State :=
  { onWinState with showCongratulations := true, framesCounter := 7325 }

/-- A draw call with the left mouse button pressed. -/
def clickDraw : DrawInput := { mousePressed := true }

/-- A draw call without a click. -/
def plainDraw : DrawInput := { mousePressed := false }

/-- Minutes argument of the drawn time text. -/
def TimeText.minutes : TimeText → Int
  | TimeText.dialog m _ => m
  | TimeText.corner m _ => m

/-- Seconds argument of the drawn time text. -/
def TimeText.seconds : TimeText → Int
  | TimeText.dialog _ s => s
  | TimeText.corner _ s => s

/-! ## Elements named by index, and more sample inputs -/

/-- The element the draw code calls `winningPlatform`:
`envElements[MAX_ENVIRONMENT_ELEMENTS - 1]`. -/
def winningPlatform (s : State) : EnvElement :=
  s.envElements.getD (MAX_ENVIRONMENT_ELEMENTS - 1) EnvElement.zero

/-- The floor: `envElements[0]`. -/
def floorPlatform (s : State) : EnvElement := s.envElements.getD 0 EnvElement.zero

/-- A frame of 0.5 s with no key held. -/
def hitchFrame : FrameInput := { left := false, right := false, dt := 1 / 2, getScreenWidth := 800 }

/-- The sample layout with the middle element lowered to the floor's height, so that two
elements lie at y = 600 under the player, who falls at 900 px/s from 10 px above. -/
def twinState : State :=
  { aboveFloorState with
    envElements :=
      [initElement sampleInit 0,
       { initElement sampleInit 1 with
         rect := { (initElement sampleInit 1).rect with y := 600 } },
       initElement sampleInit 2] }

/-- The sample layout with the player 5 px below the middle element, moving up at the
jump speed. -/
def risingState : State :=
  { sampleState with player := { position := ⟨400, 405⟩, speed := -650, canJump := false } }

/-- The sample layout with the player 10 px above the middle element, falling at 500 px/s. -/
def fastFallState : State :=
  { sampleState with player := { position := ⟨400, 390⟩, speed := 500, canJump := false } }

/-- The sample layout with the player at rest on the floor. -/
def restingState : State :=
  { sampleState with player := { position := ⟨400, 600⟩, speed := 0, canJump := true } }

/-- Layout invariant for the floor: the first element is a blocking, non-moving element
with `x = 0`, width 800 and `y = 600`, and no other element lies below it. -/
def FloorLayout (s : State) : Prop :=
  ∃ (f : EnvElement) (rest : List EnvElement), s.envElements = f :: rest ∧
    f.blocking ≠ 0 ∧ f.movingPlatform = false ∧ f.rect.x = 0 ∧ f.rect.width = 800 ∧
    f.rect.y = 600 ∧ ∀ e ∈ rest, e.rect.y ≤ 600

/-! ## Rectangles in the words of the specification -/

/-- From the specification's words, not from the source: the `w x h` rectangle centred
on the point `p`, extending half the width to each side and half the height up and down. -/
def specSpriteBox (p : Vector2) (w h : ℚ) : Rectangle :=
  { x := p.x - w / 2, y := p.y - h / 2, width := w, height := h }

/-- From the specification's words, not from the source: two rectangles overlap, touching
edges counting as overlap. -/
def specRectsOverlap (a b : Rectangle) : Prop :=
  a.x ≤ b.x + b.width ∧ b.x ≤ a.x + a.width ∧ a.y ≤ b.y + b.height ∧ b.y ≤ a.y + a.height

instance (a b : Rectangle) : Decidable (specRectsOverlap a b) := by
  unfold specRectsOverlap
  infer_instance

/-- The sample layout with a 33x33 sprite and the player 16.5 px below the lower edge of
the winning platform. -/
def oddSpriteState : State :=
  { sampleState with
    slime := ⟨33, 33⟩
    player := { position := ⟨400, 483 / 2⟩, speed := 0, canJump := false } }

/-! ## UpdateGameplayScreen in rounded arithmetic

The same function with every `float` operation rounded by `fl`, the rounding of the
float format: each `+`, `-`, `*` on floats and each conversion of an `int` variable to
`float` is followed by `fl`. The `int` constants 800, 650 and 500 and the literals
convert exactly. `fl := fun q => q` gives the exact functions above; `fl := f32` gives
IEEE binary32 with round-to-nearest-even (finite range, no fused or extended-precision
evaluation). -/

/-- Nearest integer, ties to even. -/
def roundHalfEven (q : ℚ) : ℤ :=
  if q - ⌊q⌋ < 1 / 2 then ⌊q⌋
  else if 1 / 2 < q - ⌊q⌋ then ⌊q⌋ + 1
  else if ⌊q⌋ % 2 = 0 then ⌊q⌋ else ⌊q⌋ + 1

/-- Number of binary digits of `n`, by halving at most `fuel` times. -/
def bitLength : Nat → Nat → Nat
  | 0, _ => 0
  | fuel + 1, n => if n = 0 then 0 else bitLength fuel (n / 2) + 1

/-- For `q ≠ 0` the integer `e` with `2 ^ e ≤ |q| < 2 ^ (e + 1)`. -/
def floorLog2 (q : ℚ) : ℤ :=
  if (2 : ℚ) ^ ((bitLength q.num.natAbs q.num.natAbs : ℤ) - (bitLength q.den q.den : ℤ)) ≤ |q|
  then (bitLength q.num.natAbs q.num.natAbs : ℤ) - (bitLength q.den q.den : ℤ)
  else (bitLength q.num.natAbs q.num.natAbs : ℤ) - (bitLength q.den q.den : ℤ) - 1

/-- Spacing of binary32 values around `q`: 24 significant bits, subnormals below
`2 ^ (-126)`. -/
def ulp32 (q : ℚ) : ℚ := (2 : ℚ) ^ (max (floorLog2 q) (-126) - 23)

/-- Rounding to IEEE binary32, round-to-nearest-even, on the finite range. -/
def f32 (q : ℚ) : ℚ := if q = 0 then 0 else (roundHalfEven (q / ulp32 q) : ℚ) * ulp32 q

/-- The left-key step in rounded arithmetic. -/
def moveLeftF (fl : ℚ → ℚ) (inp : FrameInput) (x : ℚ) : ℚ :=
  if inp.left = true ∧ fl (x - fl (playerRunSpeed * inp.dt)) > 0 then
    fl (x - fl (playerRunSpeed * inp.dt))
  else x

/-- The right-key step in rounded arithmetic. -/
def moveRightF (fl : ℚ → ℚ) (inp : FrameInput) (x : ℚ) : ℚ :=
  if inp.right = true ∧ fl (x + fl (playerRunSpeed * inp.dt)) < fl inp.getScreenWidth then
    fl (x + fl (playerRunSpeed * inp.dt))
  else x

/-- Condition of the standing check in rounded arithmetic. -/
def standingTestF (fl : ℚ → ℚ) (dt x y speed : ℚ) (e : EnvElement) : Bool :=
  decide (e.blocking ≠ 0 ∧ e.rect.x ≤ x ∧ fl (e.rect.x + e.rect.width) ≥ x ∧
    e.rect.y = fl (y + fl (speed * dt)))

/-- The standing loop in rounded arithmetic. -/
def standingOnPlatformF (fl : ℚ → ℚ) (dt x y speed : ℚ) : List EnvElement → Bool
  | [] => false
  | e :: es =>
    if standingTestF fl dt x y speed e then true else standingOnPlatformF fl dt x y speed es

/-- Condition of the collision check in rounded arithmetic. -/
def landingTestF (fl : ℚ → ℚ) (dt x y speed : ℚ) (e : EnvElement) : Bool :=
  decide (e.blocking ≠ 0 ∧ e.rect.x ≤ x ∧ fl (e.rect.x + e.rect.width) ≥ x ∧
    e.rect.y ≥ y ∧ e.rect.y ≤ fl (y + fl (speed * dt)))

/-- One iteration of the collision loop in rounded arithmetic. -/
def collisionStepF (fl : ℚ → ℚ) (dt x : ℚ) (c : Collision) (e : EnvElement) : Collision :=
  if landingTestF fl dt x c.y c.speed e then
    { hitObstacle := true, speed := 0, y := e.rect.y }
  else c

/-- The collision loop in rounded arithmetic. -/
def collisionLoopF (fl : ℚ → ℚ) (dt x : ℚ) : Collision → List EnvElement → Collision
  | c, [] => c
  | c, e :: es => collisionLoopF fl dt x (collisionStepF fl dt x c e) es

/-- The elements at which the rounded collision loop took its `if` branch. -/
def collisionHitsF (fl : ℚ → ℚ) (dt x : ℚ) : Collision → List EnvElement → List EnvElement
  | _, [] => []
  | c, e :: es =>
    if landingTestF fl dt x c.y c.speed e then
      e :: collisionHitsF fl dt x (collisionStepF fl dt x c e) es
    else collisionHitsF fl dt x (collisionStepF fl dt x c e) es

/-- One iteration of the moving-platform loop in rounded arithmetic. -/
def movePlatformF (fl : ℚ → ℚ) (inp : FrameInput) (e : EnvElement) : EnvElement :=
  if e.movingPlatform = true then
    let x := fl (e.rect.x + fl (e.moveSpeed * inp.dt))
    let e1 : EnvElement := { e with rect := { e.rect with x := x } }
    if x ≤ 0 ∨ fl (x + e1.rect.width) ≥ fl inp.getScreenWidth then
      { e1 with moveSpeed := -e1.moveSpeed }
    else e1
  else e

/-- Player x after the two key checks, rounded arithmetic. -/
def xAfterKeysF (fl : ℚ → ℚ) (s : State) (inp : FrameInput) : ℚ :=
  moveRightF fl inp (moveLeftF fl inp s.player.position.x)

/-- Player speed after the standing check, rounded arithmetic. -/
def speedAfterStandingF (fl : ℚ → ℚ) (s : State) (inp : FrameInput) : ℚ :=
  if standingOnPlatformF fl inp.dt (xAfterKeysF fl s inp) s.player.position.y s.player.speed
      s.envElements then
    -(playerJumpSpeed : ℚ)
  else s.player.speed

/-- The collision-loop variables on entry to the loop, rounded arithmetic. -/
def collisionEntryF (fl : ℚ → ℚ) (s : State) (inp : FrameInput) : Collision :=
  { hitObstacle := false, speed := speedAfterStandingF fl s inp, y := s.player.position.y }

/-- One call of `UpdateGameplayScreen` with every float operation rounded by `fl`. -/
def UpdateGameplayScreenF (fl : ℚ → ℚ) (inp : FrameInput) (s : State) : State :=
  if s.showCongratulations = false then
    let x := xAfterKeysF fl s inp
    let c := collisionLoopF fl inp.dt x (collisionEntryF fl s inp) s.envElements
    let player : Player :=
      if c.hitObstacle = false then
        { position := ⟨x, fl (c.y + fl (c.speed * inp.dt))⟩
          speed := fl (c.speed + fl (gravity * inp.dt))
          canJump := false }
      else
        { position := ⟨x, c.y⟩, speed := c.speed, canJump := true }
    { s with
      player := player
      soundsPlayed := if c.hitObstacle = false then s.soundsPlayed else s.soundsPlayed + 1
      envElements := s.envElements.map (movePlatformF fl inp)
      camera := { s.camera with target := { s.camera.target with y := player.position.y } }
      framesCounter := wrapInt32 (s.framesCounter + 1) }
  else s

/-! ## Sample inputs in binary32 -/

/-- A frame of `2 ^ (-6)` s with no key held. -/
def frame64 : FrameInput := { left := false, right := false, dt := 1 / 64, getScreenWidth := 800 }

/-- A frame of `2 ^ (-6)` s with no key held, in a window 1024 wide. -/
def wideFrame : FrameInput :=
  { left := false, right := false, dt := 1 / 64, getScreenWidth := 1024 }

/-- A frame of `2 ^ (-30)` s with no key held. -/
def tinyFrame30 : FrameInput :=
  { left := false, right := false, dt := 1 / 1073741824, getScreenWidth := 800 }

/-- A frame of `2 ^ (-40)` s with no key held. -/
def tinyFrame40 : FrameInput :=
  { left := false, right := false, dt := 1 / 1099511627776, getScreenWidth := 800 }

/-- The sample layout with the player at the start position, falling at 12.5 px/s. -/
def slowFallState : State :=
  { sampleState with player := { position := ⟨400, 280⟩, speed := 25 / 2, canJump := false } }

/-- A 1024x600 window, a 32x32 sprite, and a generator that returns the middle of the
requested range. -/
def wideInit : InitInput :=
  { texture := ⟨32, 32⟩, getScreenWidth := 1024, getScreenHeight := 600,
    getRandomValue := fun _ lo hi => (lo + hi) / 2 }

/-- The state after `InitGameplayScreen` at program start in the 1024x600 window. -/
def wideState : State := InitGameplayScreen wideInit State.start

/-! ## Lemmas on the steps of `UpdateGameplayScreen` -/

theorem moveLeft_bounds (inp : FrameInput) (x : ℚ) (hdt : 0 ≤ inp.dt) (W : ℚ)
    (h0 : 0 < x) (hW : x < W) : 0 < moveLeft inp x ∧ moveLeft inp x < W := by
  have hrun : (0 : ℚ) ≤ (playerRunSpeed : ℚ) * inp.dt := by
    apply mul_nonneg _ hdt
    norm_num [playerRunSpeed]
  unfold moveLeft
  split_ifs with hc
  · exact ⟨hc.2, by linarith⟩
  · exact ⟨h0, hW⟩

theorem moveRight_bounds (inp : FrameInput) (x : ℚ) (hdt : 0 ≤ inp.dt)
    (h0 : 0 < x) (hW : x < inp.getScreenWidth) :
    0 < moveRight inp x ∧ moveRight inp x < inp.getScreenWidth := by
  have hrun : (0 : ℚ) ≤ (playerRunSpeed : ℚ) * inp.dt := by
    apply mul_nonneg _ hdt
    norm_num [playerRunSpeed]
  unfold moveRight
  split_ifs with hc
  · exact ⟨by linarith, hc.2⟩
  · exact ⟨h0, hW⟩

theorem update_latched (inp : FrameInput) (s : State) (h : s.showCongratulations = true) :
    UpdateGameplayScreen inp s = s := by
  simp [UpdateGameplayScreen, h]

theorem update_player_x (inp : FrameInput) (s : State) (h : s.showCongratulations = false) :
    (UpdateGameplayScreen inp s).player.position.x = xAfterKeys s inp := by
  simp only [UpdateGameplayScreen, h, if_true]
  split_ifs <;> rfl

theorem update_x_bounds (inp : FrameInput) (s : State) (hdt : 0 ≤ inp.dt)
    (h0 : 0 < s.player.position.x) (hW : s.player.position.x < inp.getScreenWidth) :
    0 < (UpdateGameplayScreen inp s).player.position.x ∧
      (UpdateGameplayScreen inp s).player.position.x < inp.getScreenWidth := by
  cases hl : s.showCongratulations with
  | true => rw [update_latched inp s hl]; exact ⟨h0, hW⟩
  | false =>
    rw [update_player_x inp s hl]
    have hL := moveLeft_bounds inp s.player.position.x hdt inp.getScreenWidth h0 hW
    exact moveRight_bounds inp _ hdt hL.1 hL.2

theorem runUpdates_x_bounds (inps : List FrameInput) :
    ∀ s : State, (∀ inp ∈ inps, 0 ≤ inp.dt ∧ inp.getScreenWidth = screenWidth) →
      0 < s.player.position.x → s.player.position.x < (screenWidth : ℚ) →
      0 < (runUpdates s inps).player.position.x ∧
        (runUpdates s inps).player.position.x < (screenWidth : ℚ) := by
  induction inps with
  | nil => intro s _ h0 hW; exact ⟨h0, hW⟩
  | cons inp inps ih =>
    intro s h h0 hW
    have hinp := h inp (List.mem_cons_self _ _)
    have hb := update_x_bounds inp s hinp.1 h0 (by rw [hinp.2]; exact hW)
    rw [hinp.2] at hb
    exact ih _ (fun i hi => h i (List.mem_cons_of_mem _ hi)) hb.1 hb.2

/-- C1. In every state reached from `InitGameplayScreen` by any sequence of
`UpdateGameplayScreen` calls (any keys, every frame time non-negative, window width
equal to `screenWidth`), the player's x satisfies `0 ≤ x < screenWidth`; this holds
whether or not the win latch is set. -/
theorem C1_player_x_on_screen (ini : InitInput) (s0 : State) (inps : List FrameInput)
    (h : ∀ inp ∈ inps, 0 ≤ inp.dt ∧ inp.getScreenWidth = screenWidth) :
    0 ≤ (runUpdates (InitGameplayScreen ini s0) inps).player.position.x ∧
      (runUpdates (InitGameplayScreen ini s0) inps).player.position.x < (screenWidth : ℚ) := by
  have hb := runUpdates_x_bounds inps (InitGameplayScreen ini s0) h
    (by norm_num [InitGameplayScreen]) (by norm_num [InitGameplayScreen, screenWidth])
  exact ⟨le_of_lt hb.1, hb.2⟩

/-! ## Lemmas on the collision loop -/

theorem landingTest_iff (dt x y speed : ℚ) (e : EnvElement) :
    landingTest dt x y speed e = true ↔
      (e.blocking ≠ 0 ∧ e.rect.x ≤ x ∧ x ≤ e.rect.x + e.rect.width ∧
        y ≤ e.rect.y ∧ e.rect.y ≤ y + speed * dt) := by
  simp [landingTest]

theorem standingTest_iff (dt x y speed : ℚ) (e : EnvElement) :
    standingTest dt x y speed e = true ↔
      (e.blocking ≠ 0 ∧ e.rect.x ≤ x ∧ x ≤ e.rect.x + e.rect.width ∧
        e.rect.y = y + speed * dt) := by
  simp [standingTest]

/-- With speed 0 the landing test passes only for an element at the player's own y. -/
theorem landingTest_rest (dt x y : ℚ) (e : EnvElement)
    (h : landingTest dt x y 0 e = true) : e.rect.y = y := by
  rw [landingTest_iff] at h
  obtain ⟨_, _, _, h1, h2⟩ := h
  simp at h2
  exact le_antisymm h2 h1

/-- After a first hit the loop variables no longer change. -/
theorem collisionLoop_after_hit (dt x y : ℚ) (es : List EnvElement) :
    collisionLoop dt x ⟨true, 0, y⟩ es = ⟨true, 0, y⟩ := by
  induction es with
  | nil => rfl
  | cons e es ih =>
    simp only [collisionLoop, collisionStep]
    split_ifs with ht
    · have hy := landingTest_rest dt x y e ht
      rw [hy]; exact ih
    · exact ih

/-- After a first hit every later hit is on an element of the same y. -/
theorem collisionHits_after_hit (dt x y : ℚ) (es : List EnvElement) :
    ∀ e ∈ collisionHits dt x ⟨true, 0, y⟩ es, e.rect.y = y := by
  induction es with
  | nil => intro e he; simp [collisionHits] at he
  | cons e0 es ih =>
    intro e he
    simp only [collisionHits, collisionStep] at he
    split_ifs at he with ht
    · have hy := landingTest_rest dt x y e0 ht
      rw [hy] at he
      rcases List.mem_cons.mp he with h | h
      · rw [h]; exact hy
      · exact ih e h
    · exact ih e he

/-- When no element passes the landing test the loop changes nothing and records no hit. -/
theorem collisionLoop_no_hit (dt x : ℚ) (c : Collision) (es : List EnvElement)
    (h : ∀ e ∈ es, landingTest dt x c.y c.speed e = false) :
    collisionLoop dt x c es = c ∧ collisionHits dt x c es = [] := by
  induction es with
  | nil => exact ⟨rfl, rfl⟩
  | cons e es ih =>
    have he := h e (List.mem_cons_self _ _)
    have ih2 := ih (fun e1 h1 => h e1 (List.mem_cons_of_mem _ h1))
    simp only [collisionLoop, collisionHits, collisionStep, he]
    simpa using ih2

/-- The loop lands on the first element that passes the landing test on entry. -/
theorem collisionLoop_first_hit (dt x : ℚ) (c : Collision) (es : List EnvElement)
    (e : EnvElement) (h : es.find? (landingTest dt x c.y c.speed) = some e) :
    collisionLoop dt x c es = ⟨true, 0, e.rect.y⟩ ∧
      ∀ e1 ∈ collisionHits dt x c es, e1.rect.y = e.rect.y := by
  induction es with
  | nil => simp at h
  | cons e0 es ih =>
    cases ht : landingTest dt x c.y c.speed e0 with
    | true =>
      have he : e0 = e := by simpa [List.find?, ht] using h
      subst he
      simp only [collisionLoop, collisionHits, collisionStep, ht, if_true]
      refine ⟨collisionLoop_after_hit dt x _ es, ?_⟩
      intro e1 h1
      rcases List.mem_cons.mp h1 with h2 | h2
      · rw [h2]
      · exact collisionHits_after_hit dt x _ es e1 h2
    | false =>
      have h2 : es.find? (landingTest dt x c.y c.speed) = some e := by
        simpa [List.find?, ht] using h
      simp only [collisionLoop, collisionHits, collisionStep, ht]
      simpa using ih h2

/-- The flag of the loop is set exactly when the loop took its hit branch somewhere. -/
theorem collisionLoop_flag_iff_hits (dt x : ℚ) (es : List EnvElement) :
    ∀ c : Collision, c.hitObstacle = false →
      ((collisionLoop dt x c es).hitObstacle = false ↔ collisionHits dt x c es = []) := by
  induction es with
  | nil => intro c hc; simp [collisionLoop, collisionHits, hc]
  | cons e es ih =>
    intro c hc
    cases ht : landingTest dt x c.y c.speed e with
    | true =>
      simp only [collisionLoop, collisionHits, collisionStep, ht, if_true]
      rw [collisionLoop_after_hit]
      simp
    | false =>
      simp only [collisionLoop, collisionHits, collisionStep, ht]
      simpa using ih c hc

theorem find_landing_of_exists (p : EnvElement → Bool) (es : List EnvElement)
    (h : ∃ e ∈ es, p e = true) : ∃ e, es.find? p = some e := by
  cases hf : es.find? p with
  | some e => exact ⟨e, rfl⟩
  | none =>
    obtain ⟨e, he, hp⟩ := h
    have := List.find?_eq_none.mp hf e he
    simp [hp] at this

theorem standingOnPlatform_false (dt x y speed : ℚ) (es : List EnvElement)
    (h : ∀ e ∈ es, standingTest dt x y speed e = false) :
    standingOnPlatform dt x y speed es = false := by
  induction es with
  | nil => rfl
  | cons e es ih =>
    simp only [standingOnPlatform, h e (List.mem_cons_self _ _)]
    simpa using ih (fun e1 h1 => h e1 (List.mem_cons_of_mem _ h1))

/-- The player after an unlatched update, in terms of the collision loop's result. -/
theorem update_player (inp : FrameInput) (s : State) (h : s.showCongratulations = false) :
    (UpdateGameplayScreen inp s).player =
      if (collisionLoop inp.dt (xAfterKeys s inp) (collisionEntry s inp)
          s.envElements).hitObstacle = false then
        { position := ⟨xAfterKeys s inp,
            (collisionLoop inp.dt (xAfterKeys s inp) (collisionEntry s inp) s.envElements).y +
              (collisionLoop inp.dt (xAfterKeys s inp) (collisionEntry s inp)
                s.envElements).speed * inp.dt⟩
          speed :=
            (collisionLoop inp.dt (xAfterKeys s inp) (collisionEntry s inp) s.envElements).speed +
              gravity * inp.dt
          canJump := false }
      else
        { position := ⟨xAfterKeys s inp,
            (collisionLoop inp.dt (xAfterKeys s inp) (collisionEntry s inp) s.envElements).y⟩
          speed :=
            (collisionLoop inp.dt (xAfterKeys s inp) (collisionEntry s inp) s.envElements).speed
          canJump := true } := by
  simp only [UpdateGameplayScreen, h, if_true]

/-- C2. In an unlatched update, if some blocking element passes the landing test
against the player's state on entry to the collision loop (x after the key checks,
speed after the standing check), then after the update the player's speed is 0, the
player's y is the y of the lowest-index element passing that test, and every element
at which the loop registered a hit has that same y. -/
theorem C2_landing_snaps_to_platform (inp : FrameInput) (s : State)
    (hl : s.showCongratulations = false)
    (hpass : ∃ e ∈ s.envElements, e.blocking ≠ 0 ∧ e.rect.x ≤ xAfterKeys s inp ∧
      xAfterKeys s inp ≤ e.rect.x + e.rect.width ∧ s.player.position.y ≤ e.rect.y ∧
      e.rect.y ≤ s.player.position.y + speedAfterStanding s inp * inp.dt) :
    (UpdateGameplayScreen inp s).player.speed = 0 ∧
    (∃ e, s.envElements.find? (landingTest inp.dt (xAfterKeys s inp) s.player.position.y
        (speedAfterStanding s inp)) = some e ∧
      (UpdateGameplayScreen inp s).player.position.y = e.rect.y) ∧
    ∀ e ∈ collisionHits inp.dt (xAfterKeys s inp) (collisionEntry s inp) s.envElements,
      e.rect.y = (UpdateGameplayScreen inp s).player.position.y := by
  obtain ⟨e0, he0, hp⟩ := hpass
  obtain ⟨e, hfind⟩ := find_landing_of_exists
    (landingTest inp.dt (xAfterKeys s inp) s.player.position.y (speedAfterStanding s inp))
    s.envElements ⟨e0, he0, (landingTest_iff _ _ _ _ _).mpr hp⟩
  have hloop := collisionLoop_first_hit inp.dt (xAfterKeys s inp) (collisionEntry s inp)
    s.envElements e hfind
  have hplayer := update_player inp s hl
  rw [hloop.1] at hplayer
  simp only [Bool.true_eq_false, if_false] at hplayer
  rw [hplayer]
  exact ⟨rfl, ⟨e, hfind, rfl⟩, hloop.2⟩

/-! ## Witnesses for C1 and C2 -/

theorem C1_player_x_on_screen_witness :
    (∀ inp ∈ [idleFrame, rightFrame, longLeftFrame],
      0 ≤ inp.dt ∧ inp.getScreenWidth = screenWidth) ∧
    0 ≤ (runUpdates (InitGameplayScreen sampleInit State.start)
      [idleFrame, rightFrame, longLeftFrame]).player.position.x ∧
    (runUpdates (InitGameplayScreen sampleInit State.start)
      [idleFrame, rightFrame, longLeftFrame]).player.position.x < (screenWidth : ℚ) :=
  have h : ∀ inp ∈ [idleFrame, rightFrame, longLeftFrame],
      0 ≤ inp.dt ∧ inp.getScreenWidth = screenWidth := by
    norm_num [idleFrame, rightFrame, longLeftFrame, screenWidth]
  ⟨h, C1_player_x_on_screen sampleInit State.start _ h⟩

theorem init_envElements (ini : InitInput) (s : State) :
    (InitGameplayScreen ini s).envElements =
      [initElement ini 0, initElement ini 1, initElement ini 2] := rfl

theorem aboveFloor_x : xAfterKeys aboveFloorState idleFrame = 400 := by
  simp [xAfterKeys, moveLeft, moveRight, idleFrame, aboveFloorState]

theorem aboveFloor_speed : speedAfterStanding aboveFloorState idleFrame = 900 := by
  rw [speedAfterStanding, aboveFloor_x]
  norm_num [aboveFloorState, sampleState, init_envElements, standingOnPlatform, standingTest,
    initElement, sampleInit, idleFrame, MAX_ENVIRONMENT_ELEMENTS, platformWidth, screenWidth]

theorem C2_landing_snaps_to_platform_witness :
    aboveFloorState.showCongratulations = false ∧
    (∃ e ∈ aboveFloorState.envElements, e.blocking ≠ 0 ∧
      e.rect.x ≤ xAfterKeys aboveFloorState idleFrame ∧
      xAfterKeys aboveFloorState idleFrame ≤ e.rect.x + e.rect.width ∧
      aboveFloorState.player.position.y ≤ e.rect.y ∧
      e.rect.y ≤ aboveFloorState.player.position.y +
        speedAfterStanding aboveFloorState idleFrame * idleFrame.dt) ∧
    (UpdateGameplayScreen idleFrame aboveFloorState).player.speed = 0 ∧
    (∃ e, aboveFloorState.envElements.find? (landingTest idleFrame.dt
        (xAfterKeys aboveFloorState idleFrame) aboveFloorState.player.position.y
        (speedAfterStanding aboveFloorState idleFrame)) = some e ∧
      (UpdateGameplayScreen idleFrame aboveFloorState).player.position.y = e.rect.y) ∧
    ∀ e ∈ collisionHits idleFrame.dt (xAfterKeys aboveFloorState idleFrame)
        (collisionEntry aboveFloorState idleFrame) aboveFloorState.envElements,
      e.rect.y = (UpdateGameplayScreen idleFrame aboveFloorState).player.position.y :=
  have hl : aboveFloorState.showCongratulations = false := rfl
  have hp : ∃ e ∈ aboveFloorState.envElements, e.blocking ≠ 0 ∧
      e.rect.x ≤ xAfterKeys aboveFloorState idleFrame ∧
      xAfterKeys aboveFloorState idleFrame ≤ e.rect.x + e.rect.width ∧
      aboveFloorState.player.position.y ≤ e.rect.y ∧
      e.rect.y ≤ aboveFloorState.player.position.y +
        speedAfterStanding aboveFloorState idleFrame * idleFrame.dt := by
    refine ⟨initElement sampleInit 0, ?_, ?_⟩
    · simp [aboveFloorState, sampleState, init_envElements]
    · rw [aboveFloor_x, aboveFloor_speed]
      norm_num [aboveFloorState, initElement, sampleInit, idleFrame,
        MAX_ENVIRONMENT_ELEMENTS, screenWidth]
  ⟨hl, hp, C2_landing_snaps_to_platform idleFrame aboveFloorState hl hp⟩

/-! ## The first frame after `InitGameplayScreen` -/

/-- With a window 600 high no element of the initial layout is at the start height 280,
so neither test passes for a player at rest there. -/
theorem init_airborne (ini : InitInput) (s0 : State) (dt x : ℚ)
    (hH : ini.getScreenHeight = 600) :
    ∀ e ∈ (InitGameplayScreen ini s0).envElements,
      standingTest dt x 280 0 e = false ∧ landingTest dt x 280 0 e = false := by
  intro e he
  rw [init_envElements] at he
  simp only [List.mem_cons, List.mem_singleton, List.not_mem_nil, or_false] at he
  rcases he with h | h | h <;> subst h <;>
    norm_num [standingTest, landingTest, initElement, hH, MAX_ENVIRONMENT_ELEMENTS]

theorem init_player (ini : InitInput) (s0 : State) :
    (InitGameplayScreen ini s0).player = ⟨⟨400, 280⟩, 0, false⟩ := rfl

theorem init_showCongratulations (ini : InitInput) (s0 : State) :
    (InitGameplayScreen ini s0).showCongratulations = s0.showCongratulations := rfl

theorem xAfterKeys_no_key (s : State) (inp : FrameInput)
    (hleft : inp.left = false) (hright : inp.right = false) :
    xAfterKeys s inp = s.player.position.x := by
  simp [xAfterKeys, moveLeft, moveRight, hleft, hright]

/-- The player after the first unlatched update from the initial layout: y is still 280,
because the position step uses the speed from before the gravity step. -/
theorem first_update_player (ini : InitInput) (s0 : State) (inp : FrameInput)
    (hH : ini.getScreenHeight = 600) (hl : s0.showCongratulations = false) :
    (UpdateGameplayScreen inp (InitGameplayScreen ini s0)).player =
      ⟨⟨xAfterKeys (InitGameplayScreen ini s0) inp, 280⟩, gravity * inp.dt, false⟩ := by
  have hair := init_airborne ini s0 inp.dt (xAfterKeys (InitGameplayScreen ini s0) inp) hH
  have hs : standingOnPlatform inp.dt (xAfterKeys (InitGameplayScreen ini s0) inp) 280 0
      (InitGameplayScreen ini s0).envElements = false :=
    standingOnPlatform_false _ _ _ _ _ (fun e he => (hair e he).1)
  have hentry : collisionEntry (InitGameplayScreen ini s0) inp = ⟨false, 0, 280⟩ := by
    simp [collisionEntry, speedAfterStanding, init_player, hs]
  have hloop := (collisionLoop_no_hit inp.dt (xAfterKeys (InitGameplayScreen ini s0) inp)
    (collisionEntry (InitGameplayScreen ini s0) inp) (InitGameplayScreen ini s0).envElements
    (by rw [hentry]; exact fun e he => (hair e he).2)).1
  have hplayer := update_player inp (InitGameplayScreen ini s0)
    (by rw [init_showCongratulations]; exact hl)
  rw [hloop, hentry] at hplayer
  simp only [if_true] at hplayer
  rw [hplayer]
  simp

/-- C4 (as the code behaves). From the state produced by `InitGameplayScreen` in a window
600 high, unlatched, after the first `UpdateGameplayScreen` call with no key held and
`dt > 0`, the player's y is still exactly 280, x is still 400, and the speed equals
`gravity * dt`. -/
theorem C4_first_frame (ini : InitInput) (s0 : State) (inp : FrameInput)
    (hH : ini.getScreenHeight = 600) (hl : s0.showCongratulations = false)
    (hleft : inp.left = false) (hright : inp.right = false) (hdt : 0 < inp.dt) :
    (UpdateGameplayScreen inp (InitGameplayScreen ini s0)).player.position.y = 280 ∧
    (UpdateGameplayScreen inp (InitGameplayScreen ini s0)).player.position.x = 400 ∧
    (UpdateGameplayScreen inp (InitGameplayScreen ini s0)).player.speed = gravity * inp.dt ∧
    0 < (UpdateGameplayScreen inp (InitGameplayScreen ini s0)).player.speed := by
  rw [first_update_player ini s0 inp hH hl, xAfterKeys_no_key _ _ hleft hright]
  refine ⟨rfl, rfl, rfl, ?_⟩
  exact mul_pos (by norm_num [gravity]) hdt

theorem C4_first_frame_witness :
    sampleInit.getScreenHeight = 600 ∧ State.start.showCongratulations = false ∧
    idleFrame.left = false ∧ idleFrame.right = false ∧ 0 < idleFrame.dt ∧
    (UpdateGameplayScreen idleFrame (InitGameplayScreen sampleInit State.start)).player.position.y
      = 280 ∧
    (UpdateGameplayScreen idleFrame (InitGameplayScreen sampleInit State.start)).player.position.x
      = 400 ∧
    (UpdateGameplayScreen idleFrame (InitGameplayScreen sampleInit State.start)).player.speed
      = gravity * idleFrame.dt ∧
    0 < (UpdateGameplayScreen idleFrame (InitGameplayScreen sampleInit State.start)).player.speed :=
  have hdt : 0 < idleFrame.dt := by norm_num [idleFrame]
  ⟨rfl, rfl, rfl, rfl, hdt,
    C4_first_frame sampleInit State.start idleFrame rfl rfl rfl rfl hdt⟩

/-- C4 as stated fails: from the initial state (player at (400, 280), speed 0, window
800x600), after one update with no key held and `dt = 1/60 > 0`, the player's y is not
strictly greater than 280. -/
theorem C4_counterexample :
    sampleState.player.position = ⟨400, 280⟩ ∧ sampleState.player.speed = 0 ∧
    sampleState.showCongratulations = false ∧
    idleFrame.left = false ∧ idleFrame.right = false ∧ 0 < idleFrame.dt ∧
    ¬ (280 < (UpdateGameplayScreen idleFrame sampleState).player.position.y) := by
  refine ⟨rfl, rfl, rfl, rfl, rfl, by norm_num [idleFrame], ?_⟩
  rw [sampleState, first_update_player sampleInit State.start idleFrame rfl rfl]
  simp

/-! ## Moving platforms -/

theorem update_envElements (inp : FrameInput) (s : State)
    (h : s.showCongratulations = false) :
    (UpdateGameplayScreen inp s).envElements = s.envElements.map (movePlatform inp) := by
  simp only [UpdateGameplayScreen, h, if_true]

theorem movePlatform_still (inp : FrameInput) (e : EnvElement)
    (h : e.movingPlatform = false) : movePlatform inp e = e := by
  simp [movePlatform, h]

theorem movePlatform_moving (inp : FrameInput) (e : EnvElement)
    (h : e.movingPlatform = true) :
    (movePlatform inp e).rect =
        { e.rect with x := e.rect.x + e.moveSpeed * inp.dt } ∧
      (movePlatform inp e).moveSpeed =
        (if e.rect.x + e.moveSpeed * inp.dt ≤ 0 ∨
            e.rect.x + e.moveSpeed * inp.dt + e.rect.width ≥ inp.getScreenWidth then
          -e.moveSpeed
        else e.moveSpeed) ∧
      (movePlatform inp e).blocking = e.blocking ∧
      (movePlatform inp e).movingPlatform = true := by
  simp only [movePlatform, h, if_true]
  split_ifs <;> simp [h]

/-- C5 (as the code behaves). In an unlatched update, the element at every index `i`
keeps its place in the array and: if `movingPlatform` is set, its x is advanced by
`moveSpeed * dt`, its `moveSpeed` is negated when the advanced x satisfies `x ≤ 0` or
`x + width ≥ GetScreenWidth()`, the current window width, and is unchanged otherwise
(y, width and height are kept); if `movingPlatform` is unset, the element is unchanged. -/
theorem C5_reflecting_platforms (inp : FrameInput) (s : State)
    (hl : s.showCongratulations = false)
    (i : Nat) (e : EnvElement) (hi : s.envElements[i]? = some e) :
    ∃ e1, (UpdateGameplayScreen inp s).envElements[i]? = some e1 ∧
      (e.movingPlatform = true →
        e1.rect.x = e.rect.x + e.moveSpeed * inp.dt ∧
        e1.rect.y = e.rect.y ∧ e1.rect.width = e.rect.width ∧
        e1.rect.height = e.rect.height ∧
        ((e1.rect.x ≤ 0 ∨ e1.rect.x + e1.rect.width ≥ (inp.getScreenWidth : ℚ)) →
          e1.moveSpeed = -e.moveSpeed) ∧
        (¬ (e1.rect.x ≤ 0 ∨ e1.rect.x + e1.rect.width ≥ (inp.getScreenWidth : ℚ)) →
          e1.moveSpeed = e.moveSpeed)) ∧
      (e.movingPlatform = false → e1 = e) := by
  refine ⟨movePlatform inp e, ?_, ?_, ?_⟩
  · rw [update_envElements inp s hl, List.getElem?_map, hi]; rfl
  · intro hm
    obtain ⟨hr, hs, _, _⟩ := movePlatform_moving inp e hm
    rw [hr, hs]
    refine ⟨rfl, rfl, rfl, rfl, ?_, ?_⟩
    · intro hc; rw [if_pos hc]
    · intro hc; rw [if_neg hc]
  · exact movePlatform_still inp e

theorem C5_reflecting_platforms_witness :
    sampleState.showCongratulations = false ∧
    sampleState.envElements[2]? = some (initElement sampleInit 2) ∧
    (initElement sampleInit 2).movingPlatform = true ∧
    ∃ e1, (UpdateGameplayScreen idleFrame sampleState).envElements[2]? = some e1 ∧
      ((initElement sampleInit 2).movingPlatform = true →
        e1.rect.x = (initElement sampleInit 2).rect.x +
          (initElement sampleInit 2).moveSpeed * idleFrame.dt ∧
        e1.rect.y = (initElement sampleInit 2).rect.y ∧
        e1.rect.width = (initElement sampleInit 2).rect.width ∧
        e1.rect.height = (initElement sampleInit 2).rect.height ∧
        ((e1.rect.x ≤ 0 ∨ e1.rect.x + e1.rect.width ≥ (idleFrame.getScreenWidth : ℚ)) →
          e1.moveSpeed = -(initElement sampleInit 2).moveSpeed) ∧
        (¬ (e1.rect.x ≤ 0 ∨ e1.rect.x + e1.rect.width ≥ (idleFrame.getScreenWidth : ℚ)) →
          e1.moveSpeed = (initElement sampleInit 2).moveSpeed)) ∧
      ((initElement sampleInit 2).movingPlatform = false → e1 = initElement sampleInit 2) :=
  ⟨rfl, rfl, rfl,
    C5_reflecting_platforms idleFrame sampleState rfl 2 (initElement sampleInit 2) rfl⟩

/-- C5 as stated fails: in a window 1024 wide, the first unlatched update after
`InitGameplayScreen` at `dt = 1/64` advances the moving platform at index 2 to
`x = 25/32`, so that `x + width = 25625/32 ≥ screenWidth = 800`, and its `moveSpeed` is
still 50, not negated. -/
theorem C5_counterexample :
    wideState.showCongratulations = false ∧
    wideState.envElements[2]? = some (initElement wideInit 2) ∧
    (initElement wideInit 2).movingPlatform = true ∧
    (initElement wideInit 2).moveSpeed = 50 ∧
    ∃ e1, (UpdateGameplayScreen wideFrame wideState).envElements[2]? = some e1 ∧
      e1.rect.x = 25 / 32 ∧ e1.rect.x + e1.rect.width = 25625 / 32 ∧
      e1.rect.x + e1.rect.width ≥ (screenWidth : ℚ) ∧
      e1.moveSpeed = 50 ∧ e1.moveSpeed ≠ -(initElement wideInit 2).moveSpeed := by
  refine ⟨rfl, rfl, rfl, by simp [initElement], movePlatform wideFrame (initElement wideInit 2),
    ?_, ?_⟩
  · rw [update_envElements wideFrame wideState rfl, List.getElem?_map]; rfl
  · obtain ⟨hr, hs, _, _⟩ := movePlatform_moving wideFrame (initElement wideInit 2) rfl
    rw [hr, hs]
    norm_num [initElement, wideFrame, MAX_ENVIRONMENT_ELEMENTS, screenWidth]

/-! ## The win latch, the frame counter and the finish flag -/

theorem draw_showCongratulations (d : DrawInput) (s : State) :
    (DrawGameplayScreen d s).1.showCongratulations =
      (touchesWinningPlatform s || s.showCongratulations) := by
  unfold DrawGameplayScreen
  cases ht : touchesWinningPlatform s <;> cases hs : s.showCongratulations <;>
    cases hm : d.mousePressed <;> simp [hs]

theorem draw_framesCounter (d : DrawInput) (s : State) :
    (DrawGameplayScreen d s).1.framesCounter = s.framesCounter := by
  unfold DrawGameplayScreen
  cases ht : touchesWinningPlatform s <;> cases hs : s.showCongratulations <;>
    cases hm : d.mousePressed <;> simp [hs]

theorem draw_finishScreen (d : DrawInput) (s : State) :
    (DrawGameplayScreen d s).1.finishScreen =
      if (touchesWinningPlatform s || s.showCongratulations) = true ∧ d.mousePressed = true
      then 1 else s.finishScreen := by
  unfold DrawGameplayScreen
  cases ht : touchesWinningPlatform s <;> cases hs : s.showCongratulations <;>
    cases hm : d.mousePressed <;> simp [hs]

theorem draw_timeText (d : DrawInput) (s : State) :
    (DrawGameplayScreen d s).2 =
      if (touchesWinningPlatform s || s.showCongratulations) = true then
        TimeText.dialog ((s.framesCounter.tdiv 60).tdiv 60) ((s.framesCounter.tdiv 60).tmod 60)
      else
        TimeText.corner ((s.framesCounter.tdiv 60).tdiv 60) ((s.framesCounter.tdiv 60).tmod 60) := by
  unfold DrawGameplayScreen
  cases ht : touchesWinningPlatform s <;> cases hs : s.showCongratulations <;>
    cases hm : d.mousePressed <;> simp [hs]

theorem update_showCongratulations (inp : FrameInput) (s : State) :
    (UpdateGameplayScreen inp s).showCongratulations = s.showCongratulations := by
  unfold UpdateGameplayScreen
  split_ifs <;> rfl

theorem update_finishScreen (inp : FrameInput) (s : State) :
    (UpdateGameplayScreen inp s).finishScreen = s.finishScreen := by
  unfold UpdateGameplayScreen
  split_ifs <;> rfl

theorem update_framesCounter (inp : FrameInput) (s : State)
    (h : s.showCongratulations = false) :
    (UpdateGameplayScreen inp s).framesCounter = wrapInt32 (s.framesCounter + 1) := by
  simp only [UpdateGameplayScreen, h, if_true]

/-- No call clears the latch. -/
theorem call_keeps_latch (c : Call) (s : State) (h : s.showCongratulations = true) :
    (c.run s).showCongratulations = true := by
  cases c with
  | init inp => exact h
  | update inp => simp only [Call.run]; rw [update_showCongratulations]; exact h
  | draw inp => simp only [Call.run]; rw [draw_showCongratulations, h]; simp
  | unload => exact h

theorem runCalls_keeps_latch (cs : List Call) :
    ∀ s : State, s.showCongratulations = true → (runCalls s cs).showCongratulations = true := by
  induction cs with
  | nil => intro s h; exact h
  | cons c cs ih => intro s h; exact ih _ (call_keeps_latch c s h)

/-- Once latched, no call changes the frame counter. -/
theorem call_latched_framesCounter (c : Call) (s : State) (h : s.showCongratulations = true) :
    (c.run s).framesCounter = s.framesCounter := by
  cases c with
  | init inp => rfl
  | update inp => simp only [Call.run]; rw [update_latched inp s h]
  | draw inp => simp only [Call.run]; rw [draw_framesCounter]
  | unload => rfl

theorem runCalls_latched_framesCounter (cs : List Call) :
    ∀ s : State, s.showCongratulations = true →
      (runCalls s cs).framesCounter = s.framesCounter := by
  induction cs with
  | nil => intro s _; rfl
  | cons c cs ih =>
    intro s h
    simp only [runCalls]
    rw [ih _ (call_keeps_latch c s h), call_latched_framesCounter c s h]

/-- C6. If a `DrawGameplayScreen` call finds the player's box overlapping the winning
platform, `showCongratulations` is true after that call and after every sequence of
later calls (`Init`, `Update`, `Draw`, `Unload`, any inputs); and from any state in which
it is true, no single call sets it back to false. -/
theorem C6_win_latch_one_way (d : DrawInput) (s : State)
    (h : touchesWinningPlatform s = true) :
    (DrawGameplayScreen d s).1.showCongratulations = true ∧
    (∀ cs : List Call,
      (runCalls (DrawGameplayScreen d s).1 cs).showCongratulations = true) ∧
    (∀ (c : Call) (s1 : State), s1.showCongratulations = true →
      (c.run s1).showCongratulations = true) := by
  have h1 : (DrawGameplayScreen d s).1.showCongratulations = true := by
    rw [draw_showCongratulations, h]; rfl
  exact ⟨h1, fun cs => runCalls_keeps_latch cs _ h1, call_keeps_latch⟩

/-- C7. When `showCongratulations` is set, `UpdateGameplayScreen` returns the state it
was given, for every input: player, elements, camera and `framesCounter` are unchanged. -/
theorem C7_simulation_freeze (inp : FrameInput) (s : State)
    (h : s.showCongratulations = true) :
    UpdateGameplayScreen inp s = s ∧
    (UpdateGameplayScreen inp s).player = s.player ∧
    (UpdateGameplayScreen inp s).envElements = s.envElements ∧
    (UpdateGameplayScreen inp s).camera = s.camera ∧
    (UpdateGameplayScreen inp s).framesCounter = s.framesCounter := by
  rw [update_latched inp s h]
  exact ⟨rfl, rfl, rfl, rfl, rfl⟩

theorem onWin_touches : touchesWinningPlatform onWinState = true := by
  norm_num [touchesWinningPlatform, onWinState, sampleState, init_envElements, initElement,
    sampleInit, MAX_ENVIRONMENT_ELEMENTS, screenWidth, InitGameplayScreen, Int.tdiv]

theorem C6_win_latch_one_way_witness :
    touchesWinningPlatform onWinState = true ∧
    (DrawGameplayScreen plainDraw onWinState).1.showCongratulations = true ∧
    (∀ cs : List Call,
      (runCalls (DrawGameplayScreen plainDraw onWinState).1 cs).showCongratulations = true) ∧
    (∀ (c : Call) (s1 : State), s1.showCongratulations = true →
      (c.run s1).showCongratulations = true) :=
  ⟨onWin_touches, C6_win_latch_one_way plainDraw onWinState onWin_touches⟩

theorem C7_simulation_freeze_witness :
    wonState.showCongratulations = true ∧
    UpdateGameplayScreen rightFrame wonState = wonState ∧
    (UpdateGameplayScreen rightFrame wonState).player = wonState.player ∧
    (UpdateGameplayScreen rightFrame wonState).envElements = wonState.envElements ∧
    (UpdateGameplayScreen rightFrame wonState).camera = wonState.camera ∧
    (UpdateGameplayScreen rightFrame wonState).framesCounter = wonState.framesCounter :=
  ⟨rfl, C7_simulation_freeze rightFrame wonState rfl⟩

/-- The two numbers formatted from a non-negative counter. -/
theorem timer_split (fc : Int) (h0 : 0 ≤ fc) :
    60 * (fc.tdiv 60).tdiv 60 + (fc.tdiv 60).tmod 60 = ⌊(fc : ℚ) / 60⌋ ∧
      0 ≤ (fc.tdiv 60).tmod 60 ∧ (fc.tdiv 60).tmod 60 < 60 := by
  have hfloor : ⌊(fc : ℚ) / 60⌋ = fc / 60 := by
    have := Rat.floor_intCast_div_natCast fc 60
    simpa using this
  have ht : fc.tdiv 60 = fc / 60 := Int.tdiv_eq_ediv h0 (by norm_num)
  have ht0 : 0 ≤ fc / 60 := Int.ediv_nonneg h0 (by norm_num)
  rw [hfloor, ht, Int.tdiv_eq_ediv ht0 (by norm_num), Int.tmod_eq_emod ht0 (by norm_num)]
  omega

theorem wrapInt32_succ (n : Int) (hlo : -2147483648 ≤ n) (hhi : n < 2147483647) :
    wrapInt32 (n + 1) = n + 1 := by
  unfold wrapInt32
  omega

theorem timeText_minutes_seconds (d : DrawInput) (s : State) :
    (DrawGameplayScreen d s).2.minutes = (s.framesCounter.tdiv 60).tdiv 60 ∧
      (DrawGameplayScreen d s).2.seconds = (s.framesCounter.tdiv 60).tmod 60 := by
  rw [draw_timeText]
  split_ifs <;> exact ⟨rfl, rfl⟩

/-- C8. For every `framesCounter ≥ 0`, the minutes `m` and seconds `s` that
`DrawGameplayScreen` formats (dialog or corner readout) satisfy
`60 * m + s = floor (framesCounter / 60)` and `0 ≤ s < 60`; an unlatched update adds
exactly 1 to `framesCounter` (for every `int` value below `INT_MAX`); and once the latch
is set, the time text drawn after any sequence of further calls is the one drawn now. -/
theorem C8_elapsed_time_display :
    (∀ (d : DrawInput) (s : State), 0 ≤ s.framesCounter →
      60 * (DrawGameplayScreen d s).2.minutes + (DrawGameplayScreen d s).2.seconds =
        ⌊(s.framesCounter : ℚ) / 60⌋ ∧
      0 ≤ (DrawGameplayScreen d s).2.seconds ∧ (DrawGameplayScreen d s).2.seconds < 60) ∧
    (∀ (inp : FrameInput) (s : State), s.showCongratulations = false →
      -2147483648 ≤ s.framesCounter → s.framesCounter < 2147483647 →
      (UpdateGameplayScreen inp s).framesCounter = s.framesCounter + 1) ∧
    (∀ (s : State) (cs : List Call) (d d1 : DrawInput), s.showCongratulations = true →
      (DrawGameplayScreen d1 (runCalls s cs)).2 = (DrawGameplayScreen d s).2) := by
  refine ⟨?_, ?_, ?_⟩
  · intro d s h0
    obtain ⟨hm, hs⟩ := timeText_minutes_seconds d s
    rw [hm, hs]
    exact timer_split s.framesCounter h0
  · intro inp s hl hlo hhi
    rw [update_framesCounter inp s hl, wrapInt32_succ _ hlo hhi]
  · intro s cs d d1 hl
    rw [draw_timeText, draw_timeText, runCalls_keeps_latch cs s hl,
      runCalls_latched_framesCounter cs s hl, hl]
    simp

theorem C8_elapsed_time_display_witness :
    (0 ≤ wonState.framesCounter ∧
      (DrawGameplayScreen plainDraw wonState).2 = TimeText.dialog 2 2 ∧
      60 * (DrawGameplayScreen plainDraw wonState).2.minutes +
          (DrawGameplayScreen plainDraw wonState).2.seconds =
        ⌊(wonState.framesCounter : ℚ) / 60⌋) ∧
    (sampleState.showCongratulations = false ∧
      (UpdateGameplayScreen idleFrame sampleState).framesCounter =
        sampleState.framesCounter + 1) ∧
    (wonState.showCongratulations = true ∧
      (DrawGameplayScreen clickDraw
          (runCalls wonState [Call.update rightFrame, Call.draw plainDraw])).2 =
        (DrawGameplayScreen plainDraw wonState).2) :=
  have h0 : 0 ≤ wonState.framesCounter := by decide
  have hlo : -2147483648 ≤ sampleState.framesCounter := by decide
  have hhi : sampleState.framesCounter < 2147483647 := by decide
  ⟨⟨h0, by rw [draw_timeText]; simp [wonState]; decide,
      (C8_elapsed_time_display.1 plainDraw wonState h0).1⟩,
    ⟨rfl, C8_elapsed_time_display.2.1 idleFrame sampleState rfl hlo hhi⟩,
    ⟨rfl, C8_elapsed_time_display.2.2 wonState _ plainDraw clickDraw rfl⟩⟩

/-- C9. In a `DrawGameplayScreen` call with the left mouse button pressed, if the
overlay is shown in that call then `FinishGameplayScreen` afterwards returns a nonzero
value (1); if the overlay is not shown, `finishScreen` is unchanged. `UpdateGameplayScreen`,
a draw without a click, `InitGameplayScreen` and `UnloadGameplayScreen` leave
`finishScreen` unchanged. -/
theorem C9_finish_signal :
    (∀ (d : DrawInput) (s : State), d.mousePressed = true →
      (DrawGameplayScreen d s).1.showCongratulations = true →
      FinishGameplayScreen (DrawGameplayScreen d s).1 = 1 ∧
        FinishGameplayScreen (DrawGameplayScreen d s).1 ≠ 0) ∧
    (∀ (d : DrawInput) (s : State), d.mousePressed = true →
      (DrawGameplayScreen d s).1.showCongratulations = false →
      (DrawGameplayScreen d s).1.finishScreen = s.finishScreen) ∧
    (∀ (inp : FrameInput) (s : State),
      (UpdateGameplayScreen inp s).finishScreen = s.finishScreen) ∧
    (∀ (d : DrawInput) (s : State), d.mousePressed = false →
      (DrawGameplayScreen d s).1.finishScreen = s.finishScreen) ∧
    (∀ (ini : InitInput) (s : State),
      (InitGameplayScreen ini s).finishScreen = s.finishScreen) ∧
    (∀ s : State, (UnloadGameplayScreen s).finishScreen = s.finishScreen) := by
  refine ⟨?_, ?_, update_finishScreen, ?_, fun _ _ => rfl, fun _ => rfl⟩
  · intro d s hm hshow
    rw [draw_showCongratulations] at hshow
    have hf : (DrawGameplayScreen d s).1.finishScreen = 1 := by
      rw [draw_finishScreen, if_pos ⟨hshow, hm⟩]
    unfold FinishGameplayScreen
    rw [hf]
    exact ⟨rfl, by decide⟩
  · intro d s _ hshow
    rw [draw_showCongratulations] at hshow
    rw [draw_finishScreen, if_neg]
    rintro ⟨h1, _⟩
    rw [hshow] at h1
    exact Bool.false_ne_true h1
  · intro d s hm
    rw [draw_finishScreen, if_neg]
    rintro ⟨_, h2⟩
    rw [hm] at h2
    exact Bool.false_ne_true h2

theorem C9_finish_signal_witness :
    (clickDraw.mousePressed = true ∧
      (DrawGameplayScreen clickDraw wonState).1.showCongratulations = true ∧
      FinishGameplayScreen wonState = 0 ∧
      FinishGameplayScreen (DrawGameplayScreen clickDraw wonState).1 = 1) ∧
    ((DrawGameplayScreen clickDraw sampleState).1.showCongratulations = false ∧
      (DrawGameplayScreen clickDraw sampleState).1.finishScreen = sampleState.finishScreen) :=
  have h1 : (DrawGameplayScreen clickDraw wonState).1.showCongratulations = true := by
    rw [draw_showCongratulations]; simp [wonState]
  have h2 : (DrawGameplayScreen clickDraw sampleState).1.showCongratulations = false := by
    rw [draw_showCongratulations]
    norm_num [touchesWinningPlatform, sampleState, init_envElements, initElement,
      sampleInit, MAX_ENVIRONMENT_ELEMENTS, screenWidth, InitGameplayScreen, Int.tdiv,
      State.start]
  ⟨⟨rfl, h1, rfl, (C9_finish_signal.1 clickDraw wonState rfl h1).1⟩,
    ⟨h2, C9_finish_signal.2.1 clickDraw sampleState rfl h2⟩⟩

/-! ## Horizontal movement -/

/-- C10 (as the code behaves). In an unlatched update with `dt ≥ 0` and window width
`screenWidth`: with only left held, x moves by `-playerRunSpeed * dt` exactly when the
resulting position is strictly greater than 0, and is unchanged otherwise (so a resulting
position of exactly 0 is rejected); with only right held, x moves by
`+playerRunSpeed * dt` exactly when the resulting position is strictly less than
`screenWidth`; with no key held x is unchanged. For a player on screen
(`0 < x < screenWidth`) the move is therefore made exactly when the resulting position
lies in the open interval `(0, screenWidth)`. -/
theorem C10_horizontal_movement (inp : FrameInput) (s : State)
    (hl : s.showCongratulations = false) (hdt : 0 ≤ inp.dt)
    (hW : inp.getScreenWidth = screenWidth) :
    (inp.left = true → inp.right = false →
      (UpdateGameplayScreen inp s).player.position.x =
        if 0 < s.player.position.x - playerRunSpeed * inp.dt then
          s.player.position.x - playerRunSpeed * inp.dt
        else s.player.position.x) ∧
    (inp.left = false → inp.right = true →
      (UpdateGameplayScreen inp s).player.position.x =
        if s.player.position.x + playerRunSpeed * inp.dt < (screenWidth : ℚ) then
          s.player.position.x + playerRunSpeed * inp.dt
        else s.player.position.x) ∧
    (inp.left = false → inp.right = false →
      (UpdateGameplayScreen inp s).player.position.x = s.player.position.x) ∧
    (0 < s.player.position.x → s.player.position.x < (screenWidth : ℚ) →
      (inp.left = true → inp.right = false →
        (UpdateGameplayScreen inp s).player.position.x =
          if 0 < s.player.position.x - playerRunSpeed * inp.dt ∧
              s.player.position.x - playerRunSpeed * inp.dt < (screenWidth : ℚ) then
            s.player.position.x - playerRunSpeed * inp.dt
          else s.player.position.x) ∧
      (inp.left = false → inp.right = true →
        (UpdateGameplayScreen inp s).player.position.x =
          if 0 < s.player.position.x + playerRunSpeed * inp.dt ∧
              s.player.position.x + playerRunSpeed * inp.dt < (screenWidth : ℚ) then
            s.player.position.x + playerRunSpeed * inp.dt
          else s.player.position.x)) := by
  have hrun : (0 : ℚ) ≤ (playerRunSpeed : ℚ) * inp.dt :=
    mul_nonneg (by norm_num [playerRunSpeed]) hdt
  rw [update_player_x inp s hl]
  have hleft : inp.left = true → inp.right = false →
      xAfterKeys s inp =
        if 0 < s.player.position.x - playerRunSpeed * inp.dt then
          s.player.position.x - playerRunSpeed * inp.dt
        else s.player.position.x := by
    intro h1 h2
    simp [xAfterKeys, moveLeft, moveRight, h1, h2]
  have hright : inp.left = false → inp.right = true →
      xAfterKeys s inp =
        if s.player.position.x + playerRunSpeed * inp.dt < (screenWidth : ℚ) then
          s.player.position.x + playerRunSpeed * inp.dt
        else s.player.position.x := by
    intro h1 h2
    simp [xAfterKeys, moveLeft, moveRight, h1, h2, hW]
  refine ⟨hleft, hright, xAfterKeys_no_key s inp, ?_⟩
  intro h0 hx
  refine ⟨fun h1 h2 => ?_, fun h1 h2 => ?_⟩
  · rw [hleft h1 h2]
    by_cases hc : 0 < s.player.position.x - playerRunSpeed * inp.dt
    · rw [if_pos hc, if_pos ⟨hc, by linarith⟩]
    · rw [if_neg hc, if_neg (fun h => hc h.1)]
  · rw [hright h1 h2]
    by_cases hc : s.player.position.x + playerRunSpeed * inp.dt < (screenWidth : ℚ)
    · rw [if_pos hc, if_pos ⟨by linarith, hc⟩]
    · rw [if_neg hc, if_neg (fun h => hc h.2)]

theorem sample_left_x : xAfterKeys sampleState longLeftFrame = 400 := by
  norm_num [xAfterKeys, moveLeft, moveRight, longLeftFrame, sampleState, init_player,
    playerRunSpeed]

/-- C10 as stated fails: from the initial state (x = 400, unlatched, window 800 wide)
with only left held and `dt = 4/5`, the resulting position `400 - 500 * 4/5 = 0` lies in
`[0, screenWidth)` and yet x does not move: it is still 400. -/
theorem C10_counterexample :
    sampleState.showCongratulations = false ∧ 0 ≤ longLeftFrame.dt ∧
    longLeftFrame.getScreenWidth = screenWidth ∧
    longLeftFrame.left = true ∧ longLeftFrame.right = false ∧
    sampleState.player.position.x - playerRunSpeed * longLeftFrame.dt = 0 ∧
    0 ≤ sampleState.player.position.x - playerRunSpeed * longLeftFrame.dt ∧
    sampleState.player.position.x - playerRunSpeed * longLeftFrame.dt < (screenWidth : ℚ) ∧
    (UpdateGameplayScreen longLeftFrame sampleState).player.position.x = 400 ∧
    (UpdateGameplayScreen longLeftFrame sampleState).player.position.x ≠
      sampleState.player.position.x - playerRunSpeed * longLeftFrame.dt := by
  have hx : (UpdateGameplayScreen longLeftFrame sampleState).player.position.x = 400 := by
    rw [update_player_x longLeftFrame sampleState rfl, sample_left_x]
  have hr : sampleState.player.position.x - playerRunSpeed * longLeftFrame.dt = 0 := by
    norm_num [sampleState, init_player, playerRunSpeed, longLeftFrame]
  rw [hx, hr]
  refine ⟨rfl, by norm_num [longLeftFrame], rfl, rfl, rfl, rfl, le_refl _, ?_, rfl, by norm_num⟩
  norm_num [screenWidth]

theorem C10_horizontal_movement_witness :
    sampleState.showCongratulations = false ∧ 0 ≤ rightFrame.dt ∧
    rightFrame.getScreenWidth = screenWidth ∧
    rightFrame.left = false ∧ rightFrame.right = true ∧
    (UpdateGameplayScreen rightFrame sampleState).player.position.x =
      (if sampleState.player.position.x + playerRunSpeed * rightFrame.dt < (screenWidth : ℚ) then
        sampleState.player.position.x + playerRunSpeed * rightFrame.dt
      else sampleState.player.position.x) :=
  have hdt : 0 ≤ rightFrame.dt := by norm_num [rightFrame]
  ⟨rfl, hdt, rfl, rfl, rfl,
    (C10_horizontal_movement rightFrame sampleState rfl hdt rfl).2.1 rfl rfl⟩

/-! ## The landing sound -/

theorem update_soundsPlayed (inp : FrameInput) (s : State)
    (h : s.showCongratulations = false) :
    (UpdateGameplayScreen inp s).soundsPlayed =
      if (collisionLoop inp.dt (xAfterKeys s inp) (collisionEntry s inp)
          s.envElements).hitObstacle = false then s.soundsPlayed
      else s.soundsPlayed + 1 := by
  simp only [UpdateGameplayScreen, h, if_true]

/-- The player after an unlatched update in which the element `e` is the first to pass
the landing test. -/
theorem update_player_landed (inp : FrameInput) (s : State)
    (hl : s.showCongratulations = false) (e : EnvElement)
    (hfind : s.envElements.find? (landingTest inp.dt (xAfterKeys s inp) s.player.position.y
      (speedAfterStanding s inp)) = some e) :
    (UpdateGameplayScreen inp s).player = ⟨⟨xAfterKeys s inp, e.rect.y⟩, 0, true⟩ := by
  have hloop := collisionLoop_first_hit inp.dt (xAfterKeys s inp) (collisionEntry s inp)
    s.envElements e hfind
  rw [update_player inp s hl, hloop.1]
  simp

/-- The player after an unlatched update in which no element passes the landing test. -/
theorem update_player_airborne (inp : FrameInput) (s : State)
    (hl : s.showCongratulations = false)
    (hnone : ∀ e ∈ s.envElements, landingTest inp.dt (xAfterKeys s inp) s.player.position.y
      (speedAfterStanding s inp) e = false) :
    (UpdateGameplayScreen inp s).player =
      ⟨⟨xAfterKeys s inp, s.player.position.y + speedAfterStanding s inp * inp.dt⟩,
        speedAfterStanding s inp + gravity * inp.dt, false⟩ := by
  have hloop := (collisionLoop_no_hit inp.dt (xAfterKeys s inp) (collisionEntry s inp)
    s.envElements hnone).1
  rw [update_player inp s hl, hloop]
  simp [collisionEntry]

/-- C11 (as the code behaves). In an unlatched update in which the collision loop
registers contact with `k ≥ 1` elements, `PlaySound` is called exactly once, whatever
`k` is; in an update with no contact it is not called. -/
theorem C11_landing_sound_once (inp : FrameInput) (s : State)
    (hl : s.showCongratulations = false) :
    (1 ≤ (collisionHits inp.dt (xAfterKeys s inp) (collisionEntry s inp)
        s.envElements).length →
      (UpdateGameplayScreen inp s).soundsPlayed = s.soundsPlayed + 1) ∧
    ((collisionHits inp.dt (xAfterKeys s inp) (collisionEntry s inp)
        s.envElements).length = 0 →
      (UpdateGameplayScreen inp s).soundsPlayed = s.soundsPlayed) := by
  have hiff := collisionLoop_flag_iff_hits inp.dt (xAfterKeys s inp) s.envElements
    (collisionEntry s inp) rfl
  rw [update_soundsPlayed inp s hl]
  constructor
  · intro hk
    rw [if_neg]
    intro hflag
    rw [hiff.mp hflag] at hk
    simp at hk
  · intro hk
    rw [if_pos (hiff.mpr (List.length_eq_zero.mp hk))]

theorem twin_x : xAfterKeys twinState idleFrame = 400 := by
  simp [xAfterKeys, moveLeft, moveRight, idleFrame, twinState, aboveFloorState]

theorem twin_speed : speedAfterStanding twinState idleFrame = 900 := by
  rw [speedAfterStanding, twin_x]
  norm_num [twinState, aboveFloorState, standingOnPlatform, standingTest,
    initElement, sampleInit, idleFrame, MAX_ENVIRONMENT_ELEMENTS, platformWidth, screenWidth]

theorem twin_hits :
    (collisionHits idleFrame.dt (xAfterKeys twinState idleFrame)
      (collisionEntry twinState idleFrame) twinState.envElements).length = 2 := by
  rw [collisionEntry, twin_x, twin_speed]
  norm_num [twinState, aboveFloorState, collisionHits, collisionStep, landingTest,
    initElement, sampleInit, idleFrame, MAX_ENVIRONMENT_ELEMENTS, platformWidth, screenWidth]

theorem C11_landing_sound_once_witness :
    twinState.showCongratulations = false ∧
    1 ≤ (collisionHits idleFrame.dt (xAfterKeys twinState idleFrame)
      (collisionEntry twinState idleFrame) twinState.envElements).length ∧
    (UpdateGameplayScreen idleFrame twinState).soundsPlayed = twinState.soundsPlayed + 1 :=
  have hk : 1 ≤ (collisionHits idleFrame.dt (xAfterKeys twinState idleFrame)
      (collisionEntry twinState idleFrame) twinState.envElements).length := by
    rw [twin_hits]; decide
  ⟨rfl, hk, (C11_landing_sound_once idleFrame twinState rfl).1 hk⟩

/-- C11 as stated fails: with two elements at y = 600 under the falling player the loop
registers `k = 2` contacts in one unlatched update, and `PlaySound` is called once, not
twice. -/
theorem C11_counterexample :
    twinState.showCongratulations = false ∧
    (collisionHits idleFrame.dt (xAfterKeys twinState idleFrame)
      (collisionEntry twinState idleFrame) twinState.envElements).length = 2 ∧
    (UpdateGameplayScreen idleFrame twinState).soundsPlayed = twinState.soundsPlayed + 1 ∧
    (UpdateGameplayScreen idleFrame twinState).soundsPlayed ≠ twinState.soundsPlayed + 2 := by
  have hflag : ¬ (collisionLoop idleFrame.dt (xAfterKeys twinState idleFrame)
      (collisionEntry twinState idleFrame) twinState.envElements).hitObstacle = false := by
    intro h
    have h0 := (collisionLoop_flag_iff_hits idleFrame.dt (xAfterKeys twinState idleFrame)
      twinState.envElements (collisionEntry twinState idleFrame) rfl).mp h
    have h2 := twin_hits
    rw [h0] at h2
    simp at h2
  have hs : (UpdateGameplayScreen idleFrame twinState).soundsPlayed
      = twinState.soundsPlayed + 1 := by
    rw [update_soundsPlayed idleFrame twinState rfl, if_neg hflag]
  refine ⟨rfl, twin_hits, hs, ?_⟩
  rw [hs]
  omega

/-! ## The floor and the winning platform across updates -/

theorem movePlatform_zero (inp : FrameInput) : movePlatform inp EnvElement.zero = EnvElement.zero := by
  simp [movePlatform, EnvElement.zero]

theorem getD_map_movePlatform (inp : FrameInput) (es : List EnvElement) (n : Nat) :
    (es.map (movePlatform inp)).getD n EnvElement.zero =
      movePlatform inp (es.getD n EnvElement.zero) := by
  have h := List.getD_map (l := es) (d := EnvElement.zero) (n := n) (movePlatform inp)
  rw [movePlatform_zero] at h
  exact h

theorem update_winningPlatform (inp : FrameInput) (s : State)
    (hl : s.showCongratulations = false) :
    winningPlatform (UpdateGameplayScreen inp s) = movePlatform inp (winningPlatform s) := by
  unfold winningPlatform
  rw [update_envElements inp s hl, getD_map_movePlatform]

theorem update_floorPlatform (inp : FrameInput) (s : State)
    (hl : s.showCongratulations = false) :
    floorPlatform (UpdateGameplayScreen inp s) = movePlatform inp (floorPlatform s) := by
  unfold floorPlatform
  rw [update_envElements inp s hl, getD_map_movePlatform]

theorem init_floorPlatform (ini : InitInput) (s0 : State) :
    floorPlatform (InitGameplayScreen ini s0) = initElement ini 0 := rfl

theorem init_winningPlatform (ini : InitInput) (s0 : State) :
    winningPlatform (InitGameplayScreen ini s0) = initElement ini 2 := rfl

/-- An update keeps a floor that is not a moving platform, and keeps the width of the
winning platform. -/
theorem update_keeps_roles (inp : FrameInput) (s : State)
    (hf : (floorPlatform s).movingPlatform = false) :
    floorPlatform (UpdateGameplayScreen inp s) = floorPlatform s ∧
      (winningPlatform (UpdateGameplayScreen inp s)).rect.width =
        (winningPlatform s).rect.width := by
  cases hl : s.showCongratulations with
  | true => rw [update_latched inp s hl]; exact ⟨rfl, rfl⟩
  | false =>
    rw [update_floorPlatform inp s hl, update_winningPlatform inp s hl,
      movePlatform_still inp _ hf]
    refine ⟨rfl, ?_⟩
    cases hm : (winningPlatform s).movingPlatform with
    | true => rw [(movePlatform_moving inp _ hm).1]
    | false => rw [movePlatform_still inp _ hm]

theorem runUpdates_keeps_roles (inps : List FrameInput) :
    ∀ s : State, (floorPlatform s).movingPlatform = false →
      floorPlatform (runUpdates s inps) = floorPlatform s ∧
        (winningPlatform (runUpdates s inps)).rect.width = (winningPlatform s).rect.width := by
  induction inps with
  | nil => intro s _; exact ⟨rfl, rfl⟩
  | cons inp inps ih =>
    intro s hf
    obtain ⟨h1, h2⟩ := update_keeps_roles inp s hf
    obtain ⟨h3, h4⟩ := ih (UpdateGameplayScreen inp s) (by rw [h1]; exact hf)
    simp only [runUpdates]
    exact ⟨by rw [h3, h1], by rw [h4, h2]⟩

/-- C12 (as the code behaves). In every state reached from `InitGameplayScreen` by any
sequence of `UpdateGameplayScreen` calls, the floor `envElements[0]` has `rect.x = 0` and
`rect.width = screenWidth`, and the winning platform
`envElements[MAX_ENVIRONMENT_ELEMENTS - 1]` has `rect.width = screenWidth`; the winning
platform has `rect.x = 0` right after `InitGameplayScreen`. -/
theorem C12_platform_roles (ini : InitInput) (s0 : State) (inps : List FrameInput) :
    (floorPlatform (runUpdates (InitGameplayScreen ini s0) inps)).rect.x = 0 ∧
    (floorPlatform (runUpdates (InitGameplayScreen ini s0) inps)).rect.width = screenWidth ∧
    (winningPlatform (runUpdates (InitGameplayScreen ini s0) inps)).rect.width = screenWidth ∧
    (winningPlatform (InitGameplayScreen ini s0)).rect.x = 0 := by
  obtain ⟨h1, h2⟩ := runUpdates_keeps_roles inps (InitGameplayScreen ini s0) rfl
  rw [h1, h2, init_floorPlatform, init_winningPlatform]
  simp [initElement, MAX_ENVIRONMENT_ELEMENTS]

/-- C12 as stated fails: after `InitGameplayScreen` (window 800x600) and one update at
`dt = 1/60`, the winning platform has `rect.x = 5/6`, not 0. -/
theorem C12_counterexample :
    0 ≤ idleFrame.dt ∧
    (winningPlatform (runUpdates (InitGameplayScreen sampleInit State.start)
      [idleFrame])).rect.x = 5 / 6 ∧
    (winningPlatform (runUpdates (InitGameplayScreen sampleInit State.start)
      [idleFrame])).rect.x ≠ 0 := by
  have hx : (winningPlatform (runUpdates (InitGameplayScreen sampleInit State.start)
      [idleFrame])).rect.x = 5 / 6 := by
    simp only [runUpdates]
    rw [update_winningPlatform idleFrame _ rfl, init_winningPlatform,
      (movePlatform_moving idleFrame (initElement sampleInit 2) rfl).1]
    norm_num [initElement, idleFrame, MAX_ENVIRONMENT_ELEMENTS]
  rw [hx]
  exact ⟨by norm_num [idleFrame], rfl, by norm_num⟩

/-! ## The initial layout -/

/-- C15. After `InitGameplayScreen` with an 800x600 window and a generator that returns
a value in the requested range: the player is at (400, 280) with speed 0 and `canJump`
false; there are three elements and element `i` has `y = 600 - 200 * i`, height 25,
`blocking` 1, `moveSpeed` 50 and `movingPlatform` set exactly when `i % 3 = 2`; elements
0 and 2 have `x = 0` and width 800, every other element has width 100 and `x` in
`[0, 700]`; the camera target is the player position. -/
theorem C15_initial_layout (ini : InitInput) (s0 : State)
    (hW : ini.getScreenWidth = 800) (hH : ini.getScreenHeight = 600)
    (hr : ∀ (i : Nat) (lo hi : Int), lo ≤ hi →
      lo ≤ ini.getRandomValue i lo hi ∧ ini.getRandomValue i lo hi ≤ hi) :
    (InitGameplayScreen ini s0).player = ⟨⟨400, 280⟩, 0, false⟩ ∧
    (InitGameplayScreen ini s0).envElements.length = MAX_ENVIRONMENT_ELEMENTS ∧
    (∀ i : Nat, i < MAX_ENVIRONMENT_ELEMENTS →
      ∃ e, (InitGameplayScreen ini s0).envElements[i]? = some e ∧
        e.rect.y = 600 - 200 * (i : ℚ) ∧ e.rect.height = 25 ∧ e.blocking = 1 ∧
        e.moveSpeed = 50 ∧ (e.movingPlatform = true ↔ i % 3 = 2) ∧
        ((i = 0 ∨ i = MAX_ENVIRONMENT_ELEMENTS - 1) → e.rect.x = 0 ∧ e.rect.width = 800) ∧
        (¬ (i = 0 ∨ i = MAX_ENVIRONMENT_ELEMENTS - 1) →
          e.rect.width = 100 ∧ 0 ≤ e.rect.x ∧ e.rect.x ≤ 700)) ∧
    (InitGameplayScreen ini s0).camera.target = (InitGameplayScreen ini s0).player.position := by
  refine ⟨rfl, rfl, ?_, rfl⟩
  intro i hi
  have hrange := hr 1 0 700 (by norm_num)
  rw [init_envElements]
  unfold MAX_ENVIRONMENT_ELEMENTS at hi
  interval_cases i
  · exact ⟨initElement ini 0, rfl, by
      norm_num [initElement, hW, hH, MAX_ENVIRONMENT_ELEMENTS, screenWidth]⟩
  · refine ⟨initElement ini 1, rfl, ?_⟩
    norm_num [initElement, hW, hH, MAX_ENVIRONMENT_ELEMENTS, screenWidth, platformWidth]
    exact ⟨hrange.1, by exact_mod_cast hrange.2⟩
  · exact ⟨initElement ini 2, rfl, by
      norm_num [initElement, hW, hH, MAX_ENVIRONMENT_ELEMENTS, screenWidth]⟩

theorem C15_initial_layout_witness :
    sampleInit.getScreenWidth = 800 ∧ sampleInit.getScreenHeight = 600 ∧
    (∀ (i : Nat) (lo hi : Int), lo ≤ hi →
      lo ≤ sampleInit.getRandomValue i lo hi ∧ sampleInit.getRandomValue i lo hi ≤ hi) ∧
    (InitGameplayScreen sampleInit State.start).player = ⟨⟨400, 280⟩, 0, false⟩ ∧
    (InitGameplayScreen sampleInit State.start).envElements.length =
      MAX_ENVIRONMENT_ELEMENTS ∧
    (∀ i : Nat, i < MAX_ENVIRONMENT_ELEMENTS →
      ∃ e, (InitGameplayScreen sampleInit State.start).envElements[i]? = some e ∧
        e.rect.y = 600 - 200 * (i : ℚ) ∧ e.rect.height = 25 ∧ e.blocking = 1 ∧
        e.moveSpeed = 50 ∧ (e.movingPlatform = true ↔ i % 3 = 2) ∧
        ((i = 0 ∨ i = MAX_ENVIRONMENT_ELEMENTS - 1) → e.rect.x = 0 ∧ e.rect.width = 800) ∧
        (¬ (i = 0 ∨ i = MAX_ENVIRONMENT_ELEMENTS - 1) →
          e.rect.width = 100 ∧ 0 ≤ e.rect.x ∧ e.rect.x ≤ 700)) ∧
    (InitGameplayScreen sampleInit State.start).camera.target =
      (InitGameplayScreen sampleInit State.start).player.position :=
  have hr : ∀ (i : Nat) (lo hi : Int), lo ≤ hi →
      lo ≤ sampleInit.getRandomValue i lo hi ∧ sampleInit.getRandomValue i lo hi ≤ hi := by
    intro i lo hi h
    simp only [sampleInit]
    omega
  ⟨rfl, rfl, hr, C15_initial_layout sampleInit State.start rfl rfl hr⟩

/-! ## The camera -/

theorem draw_player_camera (d : DrawInput) (s : State) :
    (DrawGameplayScreen d s).1.player = s.player ∧
      (DrawGameplayScreen d s).1.camera = s.camera ∧
      (DrawGameplayScreen d s).1.envElements = s.envElements := by
  unfold DrawGameplayScreen
  cases ht : touchesWinningPlatform s <;> cases hs : s.showCongratulations <;>
    cases hm : d.mousePressed <;> simp [hs]

theorem update_camera (inp : FrameInput) (s : State) :
    (UpdateGameplayScreen inp s).camera.target.x = s.camera.target.x ∧
      (UpdateGameplayScreen inp s).camera.offset = s.camera.offset ∧
      (UpdateGameplayScreen inp s).camera.rotation = s.camera.rotation ∧
      (UpdateGameplayScreen inp s).camera.zoom = s.camera.zoom := by
  unfold UpdateGameplayScreen
  split_ifs <;> exact ⟨rfl, rfl, rfl, rfl⟩

theorem update_camera_y (inp : FrameInput) (s : State)
    (h : s.camera.target.y = s.player.position.y) :
    (UpdateGameplayScreen inp s).camera.target.y =
      (UpdateGameplayScreen inp s).player.position.y := by
  cases hl : s.showCongratulations with
  | true => rw [update_latched inp s hl]; exact h
  | false =>
    simp only [UpdateGameplayScreen, hl, if_true]

/-- Every call keeps the camera target at `(400, player y)`. -/
theorem call_keeps_camera (c : Call) (s : State)
    (h : s.camera.target.y = s.player.position.y ∧ s.camera.target.x = 400) :
    (c.run s).camera.target.y = (c.run s).player.position.y ∧
      (c.run s).camera.target.x = 400 := by
  cases c with
  | init inp => exact ⟨rfl, rfl⟩
  | update inp =>
    simp only [Call.run]
    exact ⟨update_camera_y inp s h.1, by rw [(update_camera inp s).1]; exact h.2⟩
  | draw inp =>
    simp only [Call.run]
    obtain ⟨hp, hc, _⟩ := draw_player_camera inp s
    rw [hp, hc]
    exact h
  | unload => exact h

theorem runCalls_keeps_camera (cs : List Call) :
    ∀ s : State, (s.camera.target.y = s.player.position.y ∧ s.camera.target.x = 400) →
      (runCalls s cs).camera.target.y = (runCalls s cs).player.position.y ∧
        (runCalls s cs).camera.target.x = 400 := by
  induction cs with
  | nil => intro s h; exact h
  | cons c cs ih => intro s h; exact ih _ (call_keeps_camera c s h)

/-- C16. In every state reached from `InitGameplayScreen` by any sequence of calls
(`UpdateGameplayScreen`, `DrawGameplayScreen`, also `Init` and `Unload`),
`camera.target.y` equals `player.position.y` and `camera.target.x` is 400; and
`UpdateGameplayScreen` never changes `camera.target.x`, `camera.offset`, `rotation` or
`zoom`. -/
theorem C16_camera_follow (ini : InitInput) (s0 : State) (cs : List Call) :
    (runCalls (InitGameplayScreen ini s0) cs).camera.target.y =
      (runCalls (InitGameplayScreen ini s0) cs).player.position.y ∧
    (runCalls (InitGameplayScreen ini s0) cs).camera.target.x = 400 ∧
    (∀ (inp : FrameInput) (s : State),
      (UpdateGameplayScreen inp s).camera.target.x = s.camera.target.x ∧
      (UpdateGameplayScreen inp s).camera.offset = s.camera.offset ∧
      (UpdateGameplayScreen inp s).camera.rotation = s.camera.rotation ∧
      (UpdateGameplayScreen inp s).camera.zoom = s.camera.zoom) := by
  obtain ⟨h1, h2⟩ := runCalls_keeps_camera cs (InitGameplayScreen ini s0) ⟨rfl, rfl⟩
  exact ⟨h1, h2, update_camera⟩

/-! ## Re-initialisation -/

/-- C20. `InitGameplayScreen` leaves `showCongratulations`, `framesCounter` and
`finishScreen` unchanged for every prior state; so after a win and a click a new
`InitGameplayScreen` is followed by a nonzero `FinishGameplayScreen`, by a frozen
`UpdateGameplayScreen`, and by a frame counter still at its old value. -/
theorem C20_init_keeps_session_flags (ini : InitInput) (s : State) :
    (InitGameplayScreen ini s).showCongratulations = s.showCongratulations ∧
    (InitGameplayScreen ini s).framesCounter = s.framesCounter ∧
    (InitGameplayScreen ini s).finishScreen = s.finishScreen ∧
    (s.showCongratulations = true → s.finishScreen ≠ 0 →
      FinishGameplayScreen (InitGameplayScreen ini s) ≠ 0 ∧
      (∀ inp : FrameInput,
        UpdateGameplayScreen inp (InitGameplayScreen ini s) = InitGameplayScreen ini s) ∧
      (∀ inp : FrameInput,
        (UpdateGameplayScreen inp (InitGameplayScreen ini s)).framesCounter =
          s.framesCounter)) := by
  refine ⟨rfl, rfl, rfl, ?_⟩
  intro hl hf
  have hlatch : (InitGameplayScreen ini s).showCongratulations = true := hl
  refine ⟨hf, fun inp => update_latched inp _ hlatch, fun inp => ?_⟩
  rw [update_latched inp _ hlatch]
  rfl

theorem C20_init_keeps_session_flags_witness :
    (DrawGameplayScreen clickDraw wonState).1.showCongratulations = true ∧
    (DrawGameplayScreen clickDraw wonState).1.finishScreen ≠ 0 ∧
    FinishGameplayScreen
      (InitGameplayScreen sampleInit (DrawGameplayScreen clickDraw wonState).1) ≠ 0 ∧
    UpdateGameplayScreen idleFrame
        (InitGameplayScreen sampleInit (DrawGameplayScreen clickDraw wonState).1) =
      InitGameplayScreen sampleInit (DrawGameplayScreen clickDraw wonState).1 ∧
    (UpdateGameplayScreen idleFrame
        (InitGameplayScreen sampleInit (DrawGameplayScreen clickDraw wonState).1)).framesCounter =
      7325 :=
  have h1 : (DrawGameplayScreen clickDraw wonState).1.showCongratulations = true := by
    rw [draw_showCongratulations]; simp [wonState]
  have h2 : (DrawGameplayScreen clickDraw wonState).1.finishScreen ≠ 0 := by
    rw [draw_finishScreen]; simp [wonState, clickDraw]
  have hfc : (DrawGameplayScreen clickDraw wonState).1.framesCounter = 7325 := by
    rw [draw_framesCounter]; rfl
  have h := (C20_init_keeps_session_flags sampleInit
    (DrawGameplayScreen clickDraw wonState).1).2.2.2 h1 h2
  ⟨h1, h2, h.1, h.2.1 idleFrame, by rw [h.2.2 idleFrame, hfc]⟩

/-! ## The winning platform reverses on every frame -/

/-- A moving platform as wide as the window always meets the reflection condition. -/
theorem full_width_reflects (inp : FrameInput) (e : EnvElement)
    (hm : e.movingPlatform = true) (hw : e.rect.width = 800)
    (hW : inp.getScreenWidth = screenWidth) :
    (e.rect.x + e.moveSpeed * inp.dt ≤ 0 ∨
        e.rect.x + e.moveSpeed * inp.dt + e.rect.width ≥ (screenWidth : ℚ)) ∧
      movePlatform inp e =
        { e with rect := { e.rect with x := e.rect.x + e.moveSpeed * inp.dt }
                 moveSpeed := -e.moveSpeed } := by
  have hc : e.rect.x + e.moveSpeed * inp.dt ≤ 0 ∨
      e.rect.x + e.moveSpeed * inp.dt + e.rect.width ≥ (screenWidth : ℚ) := by
    rw [hw]
    rcases le_total (e.rect.x + e.moveSpeed * inp.dt) 0 with h | h
    · exact Or.inl h
    · refine Or.inr ?_
      norm_num [screenWidth]
      exact h
  refine ⟨hc, ?_⟩
  have hc2 : e.rect.x + e.moveSpeed * inp.dt ≤ 0 ∨
      e.rect.x + e.moveSpeed * inp.dt + e.rect.width ≥ (inp.getScreenWidth : ℚ) := by
    rw [hW]; exact hc
  simp only [movePlatform, hm, if_true]
  rw [if_pos hc2]

theorem update_unlatched_stays (inp : FrameInput) (s : State)
    (hl : s.showCongratulations = false) :
    (UpdateGameplayScreen inp s).showCongratulations = false := by
  rw [update_showCongratulations]; exact hl

/-- Speed and x of a full-width moving winning platform after `n` unlatched updates. -/
theorem runUpdates_winningPlatform (inps : List FrameInput) :
    ∀ s : State, s.showCongratulations = false →
      (winningPlatform s).movingPlatform = true → (winningPlatform s).rect.width = 800 →
      (∀ inp ∈ inps, inp.getScreenWidth = screenWidth) →
      (winningPlatform (runUpdates s inps)).movingPlatform = true ∧
      (winningPlatform (runUpdates s inps)).rect.width = 800 ∧
      (runUpdates s inps).showCongratulations = false ∧
      (winningPlatform (runUpdates s inps)).moveSpeed =
        (winningPlatform s).moveSpeed * (-1) ^ inps.length ∧
      ∀ dt : ℚ, (∀ inp ∈ inps, inp.dt = dt) →
        (winningPlatform (runUpdates s inps)).rect.x =
          if inps.length % 2 = 0 then (winningPlatform s).rect.x
          else (winningPlatform s).rect.x + (winningPlatform s).moveSpeed * dt := by
  induction inps with
  | nil =>
    intro s hl hm hw _
    refine ⟨hm, hw, hl, by simp [runUpdates], ?_⟩
    intro dt _
    simp [runUpdates]
  | cons inp inps ih =>
    intro s hl hm hw hW
    have hstep := (full_width_reflects inp (winningPlatform s) hm hw
      (hW inp (List.mem_cons_self _ _))).2
    have hwin := update_winningPlatform inp s hl
    rw [hstep] at hwin
    obtain ⟨i1, i2, i3, i4, i5⟩ := ih (UpdateGameplayScreen inp s)
      (update_unlatched_stays inp s hl) (by rw [hwin]; exact hm) (by rw [hwin]; exact hw)
      (fun i hi => hW i (List.mem_cons_of_mem _ hi))
    simp only [runUpdates]
    refine ⟨i1, i2, i3, ?_, ?_⟩
    · rw [i4, hwin]
      simp only [List.length_cons, pow_succ]
      ring
    · intro dt hdt
      rw [i5 dt (fun i hi => hdt i (List.mem_cons_of_mem _ hi)), hwin]
      have hd : inp.dt = dt := hdt inp (List.mem_cons_self _ _)
      simp only [List.length_cons]
      rcases Nat.mod_two_eq_zero_or_one inps.length with h | h
      · have h2 : (inps.length + 1) % 2 = 1 := by omega
        rw [if_pos h, if_neg (by omega), hd]
      · have h2 : (inps.length + 1) % 2 = 0 := by omega
        rw [if_neg (by omega), if_pos h2, hd]
        ring

/-- C19. After `InitGameplayScreen` the winning platform (index 2) is a moving platform
of width 800; after `n` unlatched updates with window width 800 (any frame times) its
`moveSpeed` is `50 * (-1)^n`, its reflection condition holds again in the next update,
which negates `moveSpeed`; and with a constant `dt` its x is 0 after an even number of
updates and `50 * dt` after an odd number. -/
theorem C19_win_platform_flips (ini : InitInput) (s0 : State) (inps : List FrameInput)
    (hl : s0.showCongratulations = false)
    (hW : ∀ inp ∈ inps, inp.getScreenWidth = screenWidth) :
    (winningPlatform (InitGameplayScreen ini s0)).movingPlatform = true ∧
    (winningPlatform (InitGameplayScreen ini s0)).rect.width = screenWidth ∧
    (winningPlatform (runUpdates (InitGameplayScreen ini s0) inps)).moveSpeed =
      50 * (-1) ^ inps.length ∧
    (∀ dt : ℚ, (∀ inp ∈ inps, inp.dt = dt) →
      (winningPlatform (runUpdates (InitGameplayScreen ini s0) inps)).rect.x =
        if inps.length % 2 = 0 then 0 else 50 * dt) ∧
    (∀ inp : FrameInput, inp.getScreenWidth = screenWidth →
      ((winningPlatform (runUpdates (InitGameplayScreen ini s0) inps)).rect.x +
          (winningPlatform (runUpdates (InitGameplayScreen ini s0) inps)).moveSpeed * inp.dt ≤ 0 ∨
        (winningPlatform (runUpdates (InitGameplayScreen ini s0) inps)).rect.x +
          (winningPlatform (runUpdates (InitGameplayScreen ini s0) inps)).moveSpeed * inp.dt +
          (winningPlatform (runUpdates (InitGameplayScreen ini s0) inps)).rect.width ≥
            (screenWidth : ℚ)) ∧
      (winningPlatform (UpdateGameplayScreen inp
          (runUpdates (InitGameplayScreen ini s0) inps))).moveSpeed =
        -(winningPlatform (runUpdates (InitGameplayScreen ini s0) inps)).moveSpeed) := by
  have hm : (winningPlatform (InitGameplayScreen ini s0)).movingPlatform = true := rfl
  have hw : (winningPlatform (InitGameplayScreen ini s0)).rect.width = 800 := by
    rw [init_winningPlatform]; simp [initElement, MAX_ENVIRONMENT_ELEMENTS, screenWidth]
  have hx : (winningPlatform (InitGameplayScreen ini s0)).rect.x = 0 := by
    rw [init_winningPlatform]; simp [initElement, MAX_ENVIRONMENT_ELEMENTS]
  have hs : (winningPlatform (InitGameplayScreen ini s0)).moveSpeed = 50 := by
    rw [init_winningPlatform]; simp [initElement]
  obtain ⟨r1, r2, r3, r4, r5⟩ := runUpdates_winningPlatform inps (InitGameplayScreen ini s0)
    hl hm hw hW
  refine ⟨hm, by rw [hw]; norm_num [screenWidth], by rw [r4, hs], ?_, ?_⟩
  · intro dt hdt
    rw [r5 dt hdt, hx, hs]
    simp
  · intro inp hinp
    obtain ⟨f1, f2⟩ := full_width_reflects inp _ r1 r2 hinp
    refine ⟨f1, ?_⟩
    rw [update_winningPlatform inp _ r3, f2]

theorem C19_win_platform_flips_witness :
    State.start.showCongratulations = false ∧
    (∀ inp ∈ [idleFrame, idleFrame, idleFrame], inp.getScreenWidth = screenWidth) ∧
    (∀ inp ∈ [idleFrame, idleFrame, idleFrame], inp.dt = 1 / 60) ∧
    (winningPlatform (runUpdates (InitGameplayScreen sampleInit State.start)
      [idleFrame, idleFrame, idleFrame])).moveSpeed = 50 * (-1) ^ 3 ∧
    (winningPlatform (runUpdates (InitGameplayScreen sampleInit State.start)
      [idleFrame, idleFrame, idleFrame])).rect.x = 50 * (1 / 60) :=
  have hW : ∀ inp ∈ [idleFrame, idleFrame, idleFrame], inp.getScreenWidth = screenWidth := by
    simp [idleFrame, screenWidth]
  have hdt : ∀ inp ∈ [idleFrame, idleFrame, idleFrame], inp.dt = 1 / 60 := by
    simp [idleFrame]
  have h := C19_win_platform_flips sampleInit State.start [idleFrame, idleFrame, idleFrame]
    rfl hW
  ⟨rfl, hW, hdt, h.2.2.1, by rw [h.2.2.2.1 (1 / 60) hdt]; rfl⟩

/-! ## The auto-jump -/

theorem standingOnPlatform_true (dt x y speed : ℚ) (es : List EnvElement)
    (h : ∃ e ∈ es, standingTest dt x y speed e = true) :
    standingOnPlatform dt x y speed es = true := by
  induction es with
  | nil => obtain ⟨e, he, _⟩ := h; simp at he
  | cons e0 es ih =>
    obtain ⟨e, he, hp⟩ := h
    simp only [standingOnPlatform]
    cases h0 : standingTest dt x y speed e0 with
    | true => rfl
    | false =>
      rcases List.mem_cons.mp he with h1 | h1
      · rw [h1, h0] at hp; exact absurd hp (by decide)
      · simpa using ih ⟨e, h1, hp⟩

/-- A player moving upward passes no landing test. -/
theorem landingTest_rising (dt x y speed : ℚ) (e : EnvElement) (h : speed * dt < 0) :
    landingTest dt x y speed e = false := by
  cases ht : landingTest dt x y speed e with
  | false => rfl
  | true =>
    rw [landingTest_iff] at ht
    obtain ⟨_, _, _, h1, h2⟩ := ht
    linarith

/-! ## The floor catches every fall -/

theorem movePlatform_y (inp : FrameInput) (e : EnvElement) :
    (movePlatform inp e).rect.y = e.rect.y := by
  cases hm : e.movingPlatform with
  | true => rw [(movePlatform_moving inp e hm).1]
  | false => rw [movePlatform_still inp e hm]

theorem init_floorLayout (ini : InitInput) (s0 : State) (hH : ini.getScreenHeight = 600) :
    FloorLayout (InitGameplayScreen ini s0) := by
  refine ⟨initElement ini 0, [initElement ini 1, initElement ini 2], init_envElements ini s0,
    ?_, ?_, ?_, ?_, ?_, ?_⟩
  · simp [initElement]
  · simp [initElement]
  · simp [initElement, MAX_ENVIRONMENT_ELEMENTS]
  · simp [initElement, MAX_ENVIRONMENT_ELEMENTS, screenWidth]
  · simp [initElement, hH]
  · intro e he
    simp only [List.mem_cons, List.mem_singleton, List.not_mem_nil, or_false] at he
    rcases he with h | h <;> subst h <;> norm_num [initElement, hH]

theorem update_floorLayout (inp : FrameInput) (s : State) (h : FloorLayout s) :
    FloorLayout (UpdateGameplayScreen inp s) := by
  cases hl : s.showCongratulations with
  | true => rw [update_latched inp s hl]; exact h
  | false =>
    obtain ⟨f, rest, hes, h1, h2, h3, h4, h5, h6⟩ := h
    refine ⟨f, rest.map (movePlatform inp), ?_, h1, h2, h3, h4, h5, ?_⟩
    · rw [update_envElements inp s hl, hes, List.map_cons, movePlatform_still inp f h2]
    · intro e he
      obtain ⟨e0, he0, hmap⟩ := List.mem_map.mp he
      rw [← hmap, movePlatform_y]
      exact h6 e0 he0

/-- One update keeps the player at or above the floor. -/
theorem update_y_le_floor (inp : FrameInput) (s : State) (h : FloorLayout s)
    (hx0 : 0 ≤ xAfterKeys s inp) (hx1 : xAfterKeys s inp ≤ 800)
    (hy : s.player.position.y ≤ 600) :
    (UpdateGameplayScreen inp s).player.position.y ≤ 600 := by
  cases hl : s.showCongratulations with
  | true => rw [update_latched inp s hl]; exact hy
  | false =>
    obtain ⟨f, rest, hes, h1, _, h3, h4, h5, h6⟩ := h
    have hall : ∀ e ∈ s.envElements, e.rect.y ≤ 600 := by
      intro e he
      rw [hes] at he
      rcases List.mem_cons.mp he with h | h
      · rw [h, h5]
      · exact h6 e h
    cases hfind : s.envElements.find? (landingTest inp.dt (xAfterKeys s inp)
        s.player.position.y (speedAfterStanding s inp)) with
    | some e =>
      rw [update_player_landed inp s hl e hfind]
      exact hall e (List.mem_of_find?_eq_some hfind)
    | none =>
      have hnone : ∀ e ∈ s.envElements, landingTest inp.dt (xAfterKeys s inp)
          s.player.position.y (speedAfterStanding s inp) e = false := by
        intro e he
        have := List.find?_eq_none.mp hfind e he
        simpa using this
      rw [update_player_airborne inp s hl hnone]
      have hf := hnone f (by rw [hes]; exact List.mem_cons_self _ _)
      by_contra hcon
      have hpass : landingTest inp.dt (xAfterKeys s inp) s.player.position.y
          (speedAfterStanding s inp) f = true := by
        rw [landingTest_iff]
        refine ⟨h1, by rw [h3]; exact hx0, by rw [h3, h4]; linarith, by rw [h5]; exact hy, ?_⟩
        rw [h5]
        simp only at hcon
        linarith
      rw [hpass] at hf
      exact absurd hf (by decide)

theorem runUpdates_y_le_floor (inps : List FrameInput) :
    ∀ s : State, FloorLayout s →
      (∀ inp ∈ inps, 0 ≤ inp.dt ∧ inp.getScreenWidth = screenWidth) →
      0 < s.player.position.x → s.player.position.x < (screenWidth : ℚ) →
      s.player.position.y ≤ 600 →
      (runUpdates s inps).player.position.y ≤ 600 ∧ FloorLayout (runUpdates s inps) := by
  induction inps with
  | nil => intro s h _ _ _ hy; exact ⟨hy, h⟩
  | cons inp inps ih =>
    intro s h hin h0 hW hy
    have hinp := hin inp (List.mem_cons_self _ _)
    have hb := update_x_bounds inp s hinp.1 h0 (by rw [hinp.2]; exact hW)
    rw [hinp.2] at hb
    have hxk : 0 < xAfterKeys s inp ∧ xAfterKeys s inp < (screenWidth : ℚ) := by
      have hL := moveLeft_bounds inp s.player.position.x hinp.1 (screenWidth : ℚ) h0 hW
      have hR := moveRight_bounds inp _ hinp.1 hL.1 (by rw [hinp.2]; exact hL.2)
      rw [hinp.2] at hR
      exact hR
    have hxk2 : xAfterKeys s inp ≤ 800 := by
      have := hxk.2
      norm_num [screenWidth] at this
      exact le_of_lt this
    exact ih (UpdateGameplayScreen inp s) (update_floorLayout inp s h)
      (fun i hi => hin i (List.mem_cons_of_mem _ hi)) hb.1 hb.2
      (update_y_le_floor inp s h (le_of_lt hxk.1) hxk2 hy)

/-- C18. In every state reached from `InitGameplayScreen` (window 600 high) by any
sequence of `UpdateGameplayScreen` calls with `dt ≥ 0` and window width 800 (any keys),
`player.position.y ≤ 600`, and 600 is the y of the floor `envElements[0]`. -/
theorem C18_never_below_floor (ini : InitInput) (s0 : State) (inps : List FrameInput)
    (hH : ini.getScreenHeight = 600)
    (h : ∀ inp ∈ inps, 0 ≤ inp.dt ∧ inp.getScreenWidth = screenWidth) :
    (runUpdates (InitGameplayScreen ini s0) inps).player.position.y ≤ 600 ∧
    (floorPlatform (runUpdates (InitGameplayScreen ini s0) inps)).rect.y = 600 := by
  obtain ⟨h1, f, rest, hes, _, _, _, _, h5, _⟩ := runUpdates_y_le_floor inps
    (InitGameplayScreen ini s0) (init_floorLayout ini s0 hH) h
    (by norm_num [InitGameplayScreen]) (by norm_num [InitGameplayScreen, screenWidth])
    (by norm_num [InitGameplayScreen])
  refine ⟨h1, ?_⟩
  rw [floorPlatform, hes]
  exact h5

theorem C18_never_below_floor_witness :
    sampleInit.getScreenHeight = 600 ∧
    (∀ inp ∈ [hitchFrame, hitchFrame, longLeftFrame, hitchFrame],
      0 ≤ inp.dt ∧ inp.getScreenWidth = screenWidth) ∧
    (runUpdates (InitGameplayScreen sampleInit State.start)
      [hitchFrame, hitchFrame, longLeftFrame, hitchFrame]).player.position.y ≤ 600 ∧
    (floorPlatform (runUpdates (InitGameplayScreen sampleInit State.start)
      [hitchFrame, hitchFrame, longLeftFrame, hitchFrame])).rect.y = 600 :=
  have h : ∀ inp ∈ [hitchFrame, hitchFrame, longLeftFrame, hitchFrame],
      0 ≤ inp.dt ∧ inp.getScreenWidth = screenWidth := by
    norm_num [hitchFrame, longLeftFrame, screenWidth]
  ⟨rfl, h, C18_never_below_floor sampleInit State.start _ rfl h⟩

/-! ## Win detection -/

/-- For rectangles of non-negative size, `specRectsOverlap` says that the two closed
rectangles have a point in common. -/
theorem specRectsOverlap_iff_common_point (a b : Rectangle)
    (haw : 0 ≤ a.width) (hah : 0 ≤ a.height) (hbw : 0 ≤ b.width) (hbh : 0 ≤ b.height) :
    specRectsOverlap a b ↔
      ∃ px py : ℚ, (a.x ≤ px ∧ px ≤ a.x + a.width ∧ a.y ≤ py ∧ py ≤ a.y + a.height) ∧
        (b.x ≤ px ∧ px ≤ b.x + b.width ∧ b.y ≤ py ∧ py ≤ b.y + b.height) := by
  constructor
  · rintro ⟨h1, h2, h3, h4⟩
    refine ⟨max a.x b.x, max a.y b.y, ⟨le_max_left _ _, max_le (by linarith) h2,
      le_max_left _ _, max_le (by linarith) h4⟩,
      ⟨le_max_right _ _, max_le h1 (by linarith), le_max_right _ _, max_le h3 (by linarith)⟩⟩
  · rintro ⟨px, py, ⟨a1, a2, a3, a4⟩, ⟨b1, b2, b3, b4⟩⟩
    exact ⟨by linarith, by linarith, by linarith, by linarith⟩

/-- The test in the draw code is the overlap of the winning platform with the box whose
half-extents are the integer halves of the sprite size. -/
theorem touchesWinningPlatform_iff (s : State) :
    touchesWinningPlatform s = true ↔
      specRectsOverlap
        (specSpriteBox s.player.position (2 * ((s.slime.width.tdiv 2 : Int) : ℚ))
          (2 * ((s.slime.height.tdiv 2 : Int) : ℚ)))
        (winningPlatform s).rect := by
  simp only [touchesWinningPlatform, winningPlatform, specRectsOverlap, specSpriteBox,
    decide_eq_true_eq]
  constructor
  · rintro ⟨h1, h2, h3, h4⟩
    exact ⟨by linarith, by linarith, by linarith, by linarith⟩
  · rintro ⟨h1, h2, h3, h4⟩
    exact ⟨by linarith, by linarith, by linarith, by linarith⟩

theorem tdiv_two_of_even (n : Int) (h : n % 2 = 0) :
    (2 : ℚ) * ((n.tdiv 2 : Int) : ℚ) = (n : ℚ) := by
  have h2 : n.tdiv 2 = n / 2 := Int.tdiv_eq_ediv_of_dvd (Int.dvd_of_emod_eq_zero h)
  have h3 : 2 * (n / 2) = n := by omega
  rw [h2]
  exact_mod_cast h3

/-- C13 (as the code behaves). A `DrawGameplayScreen` call starting unlatched sets
`showCongratulations` if and only if the rectangle centred on the player position and
extending `slime.width / 2` to each side and `slime.height / 2` up and down, both
halves taken by integer division, overlaps the rectangle of
`envElements[MAX_ENVIRONMENT_ELEMENTS - 1]`, touching edges counting as overlap; when
the sprite's width and height are even this is the sprite's `w x h` box. -/
theorem C13_win_detection (d : DrawInput) (s : State)
    (hl : s.showCongratulations = false) :
    ((DrawGameplayScreen d s).1.showCongratulations = true ↔
      specRectsOverlap
        (specSpriteBox s.player.position (2 * ((s.slime.width.tdiv 2 : Int) : ℚ))
          (2 * ((s.slime.height.tdiv 2 : Int) : ℚ)))
        (winningPlatform s).rect) ∧
    (s.slime.width % 2 = 0 → s.slime.height % 2 = 0 →
      ((DrawGameplayScreen d s).1.showCongratulations = true ↔
        specRectsOverlap (specSpriteBox s.player.position s.slime.width s.slime.height)
          (winningPlatform s).rect)) := by
  have h1 : (DrawGameplayScreen d s).1.showCongratulations = true ↔
      touchesWinningPlatform s = true := by
    rw [draw_showCongratulations, hl]; simp
  refine ⟨h1.trans (touchesWinningPlatform_iff s), ?_⟩
  intro hw hh
  rw [← tdiv_two_of_even _ hw, ← tdiv_two_of_even _ hh]
  exact h1.trans (touchesWinningPlatform_iff s)

theorem C13_win_detection_witness :
    onWinState.showCongratulations = false ∧
    onWinState.slime.width % 2 = 0 ∧ onWinState.slime.height % 2 = 0 ∧
    (DrawGameplayScreen plainDraw onWinState).1.showCongratulations = true ∧
    specRectsOverlap
      (specSpriteBox onWinState.player.position onWinState.slime.width
        onWinState.slime.height)
      (winningPlatform onWinState).rect :=
  have h1 : (DrawGameplayScreen plainDraw onWinState).1.showCongratulations = true := by
    rw [draw_showCongratulations, onWin_touches]; rfl
  ⟨rfl, by decide, by decide, h1,
    ((C13_win_detection plainDraw onWinState rfl).2 (by decide) (by decide)).mp h1⟩

/-- C13 as stated fails: with a 33x33 sprite and the player at (400, 241.5), the 33x33
box centred on the player reaches up to y = 225 and touches the lower edge of the
winning platform (y from 200 to 225), yet a draw call starting unlatched does not set
`showCongratulations`. -/
theorem C13_counterexample :
    oddSpriteState.showCongratulations = false ∧
    0 ≤ oddSpriteState.slime.width ∧ 0 ≤ oddSpriteState.slime.height ∧
    specRectsOverlap
      (specSpriteBox oddSpriteState.player.position oddSpriteState.slime.width
        oddSpriteState.slime.height)
      (winningPlatform oddSpriteState).rect ∧
    (DrawGameplayScreen plainDraw oddSpriteState).1.showCongratulations = false := by
  refine ⟨rfl, by decide, by decide, ?_, ?_⟩
  · norm_num [specRectsOverlap, specSpriteBox, winningPlatform, oddSpriteState, sampleState,
      init_envElements, initElement, sampleInit, MAX_ENVIRONMENT_ELEMENTS, screenWidth]
  · rw [draw_showCongratulations]
    norm_num [touchesWinningPlatform, oddSpriteState, sampleState, init_envElements,
      initElement, sampleInit, MAX_ENVIRONMENT_ELEMENTS, screenWidth, InitGameplayScreen,
      Int.tdiv, State.start]

/-! ## Lemmas on `UpdateGameplayScreen` in rounded arithmetic -/

theorem landingTestF_iff (fl : ℚ → ℚ) (dt x y speed : ℚ) (e : EnvElement) :
    landingTestF fl dt x y speed e = true ↔
      (e.blocking ≠ 0 ∧ e.rect.x ≤ x ∧ x ≤ fl (e.rect.x + e.rect.width) ∧
        y ≤ e.rect.y ∧ e.rect.y ≤ fl (y + fl (speed * dt))) := by
  simp [landingTestF]

theorem standingTestF_iff (fl : ℚ → ℚ) (dt x y speed : ℚ) (e : EnvElement) :
    standingTestF fl dt x y speed e = true ↔
      (e.blocking ≠ 0 ∧ e.rect.x ≤ x ∧ x ≤ fl (e.rect.x + e.rect.width) ∧
        e.rect.y = fl (y + fl (speed * dt))) := by
  simp [standingTestF]

/-- With no rounding the rounded tests and steps are the exact ones. -/
theorem landingTestF_exact (dt x y speed : ℚ) (e : EnvElement) :
    landingTestF (fun q => q) dt x y speed e = landingTest dt x y speed e := rfl

theorem standingTestF_exact (dt x y speed : ℚ) (e : EnvElement) :
    standingTestF (fun q => q) dt x y speed e = standingTest dt x y speed e := rfl

theorem standingOnPlatformF_exact (dt x y speed : ℚ) (es : List EnvElement) :
    standingOnPlatformF (fun q => q) dt x y speed es = standingOnPlatform dt x y speed es := by
  induction es with
  | nil => rfl
  | cons e es ih => simp only [standingOnPlatformF, standingOnPlatform, standingTestF_exact, ih]

theorem collisionLoopF_exact (dt x : ℚ) (es : List EnvElement) :
    ∀ c : Collision, collisionLoopF (fun q => q) dt x c es = collisionLoop dt x c es := by
  induction es with
  | nil => intro c; rfl
  | cons e es ih =>
    intro c
    simp only [collisionLoopF, collisionLoop, collisionStepF, collisionStep, landingTestF_exact]
    exact ih _

theorem movePlatformF_exact (inp : FrameInput) (e : EnvElement) :
    movePlatformF (fun q => q) inp e = movePlatform inp e := rfl

theorem xAfterKeysF_exact (s : State) (inp : FrameInput) :
    xAfterKeysF (fun q => q) s inp = xAfterKeys s inp := rfl

/-- With no rounding `UpdateGameplayScreenF` is `UpdateGameplayScreen`. -/
theorem updateF_exact (inp : FrameInput) (s : State) :
    UpdateGameplayScreenF (fun q => q) inp s = UpdateGameplayScreen inp s := by
  have hmap : s.envElements.map (movePlatformF (fun q => q) inp) =
      s.envElements.map (movePlatform inp) := by
    apply List.map_congr_left
    intro e _
    exact movePlatformF_exact inp e
  have hentry : collisionEntryF (fun q => q) s inp = collisionEntry s inp := by
    simp only [collisionEntryF, collisionEntry, speedAfterStandingF, speedAfterStanding,
      xAfterKeysF_exact, standingOnPlatformF_exact]
  simp only [UpdateGameplayScreenF, UpdateGameplayScreen, xAfterKeysF_exact, hentry,
    collisionLoopF_exact, hmap]

theorem collisionLoopF_no_hit (fl : ℚ → ℚ) (dt x : ℚ) (c : Collision) (es : List EnvElement)
    (h : ∀ e ∈ es, landingTestF fl dt x c.y c.speed e = false) :
    collisionLoopF fl dt x c es = c ∧ collisionHitsF fl dt x c es = [] := by
  induction es with
  | nil => exact ⟨rfl, rfl⟩
  | cons e es ih =>
    have he := h e (List.mem_cons_self _ _)
    have ih2 := ih (fun e1 h1 => h e1 (List.mem_cons_of_mem _ h1))
    simp only [collisionLoopF, collisionHitsF, collisionStepF, he]
    simpa using ih2

/-- At rest at a representable height the rounded landing test passes only for an
element at that height. -/
theorem landingTestF_rest (fl : ℚ → ℚ) (h0 : fl 0 = 0) (dt x y : ℚ) (hy : fl y = y)
    (e : EnvElement) (h : landingTestF fl dt x y 0 e = true) : e.rect.y = y := by
  rw [landingTestF_iff] at h
  obtain ⟨_, _, _, h1, h2⟩ := h
  rw [zero_mul, h0, add_zero, hy] at h2
  exact le_antisymm h2 h1

theorem collisionLoopF_after_hit (fl : ℚ → ℚ) (h0 : fl 0 = 0) (dt x y : ℚ) (hy : fl y = y)
    (es : List EnvElement) :
    collisionLoopF fl dt x ⟨true, 0, y⟩ es = ⟨true, 0, y⟩ ∧
      ∀ e ∈ collisionHitsF fl dt x ⟨true, 0, y⟩ es, e.rect.y = y := by
  induction es with
  | nil => exact ⟨rfl, fun e he => by simp [collisionHitsF] at he⟩
  | cons e0 es ih =>
    simp only [collisionLoopF, collisionHitsF, collisionStepF]
    cases ht : landingTestF fl dt x y 0 e0 with
    | true =>
      have hy0 := landingTestF_rest fl h0 dt x y hy e0 ht
      simp only [if_true]
      rw [hy0]
      refine ⟨ih.1, ?_⟩
      intro e he
      rcases List.mem_cons.mp he with h | h
      · rw [h]; exact hy0
      · exact ih.2 e h
    | false => simpa using ih

/-- The rounded loop lands on the first element that passes the landing test on entry. -/
theorem collisionLoopF_first_hit (fl : ℚ → ℚ) (h0 : fl 0 = 0) (dt x : ℚ) (c : Collision)
    (es : List EnvElement) (hrep : ∀ e ∈ es, fl e.rect.y = e.rect.y) (e : EnvElement)
    (h : es.find? (landingTestF fl dt x c.y c.speed) = some e) :
    collisionLoopF fl dt x c es = ⟨true, 0, e.rect.y⟩ ∧
      ∀ e1 ∈ collisionHitsF fl dt x c es, e1.rect.y = e.rect.y := by
  induction es with
  | nil => simp at h
  | cons e0 es ih =>
    cases ht : landingTestF fl dt x c.y c.speed e0 with
    | true =>
      have he : e0 = e := by simpa [List.find?, ht] using h
      subst he
      have hafter := collisionLoopF_after_hit fl h0 dt x e0.rect.y
        (hrep e0 (List.mem_cons_self _ _)) es
      simp only [collisionLoopF, collisionHitsF, collisionStepF, ht, if_true]
      refine ⟨hafter.1, ?_⟩
      intro e1 h1
      rcases List.mem_cons.mp h1 with h2 | h2
      · rw [h2]
      · exact hafter.2 e1 h2
    | false =>
      have h2 : es.find? (landingTestF fl dt x c.y c.speed) = some e := by
        simpa [List.find?, ht] using h
      simp only [collisionLoopF, collisionHitsF, collisionStepF, ht]
      simpa using ih (fun e1 h1 => hrep e1 (List.mem_cons_of_mem _ h1)) h2

theorem standingOnPlatformF_false (fl : ℚ → ℚ) (dt x y speed : ℚ) (es : List EnvElement)
    (h : ∀ e ∈ es, standingTestF fl dt x y speed e = false) :
    standingOnPlatformF fl dt x y speed es = false := by
  induction es with
  | nil => rfl
  | cons e es ih =>
    simp only [standingOnPlatformF, h e (List.mem_cons_self _ _)]
    simpa using ih (fun e1 h1 => h e1 (List.mem_cons_of_mem _ h1))

theorem standingOnPlatformF_true (fl : ℚ → ℚ) (dt x y speed : ℚ) (es : List EnvElement)
    (h : ∃ e ∈ es, standingTestF fl dt x y speed e = true) :
    standingOnPlatformF fl dt x y speed es = true := by
  induction es with
  | nil => obtain ⟨e, he, _⟩ := h; simp at he
  | cons e0 es ih =>
    obtain ⟨e, he, hp⟩ := h
    simp only [standingOnPlatformF]
    cases h0 : standingTestF fl dt x y speed e0 with
    | true => rfl
    | false =>
      rcases List.mem_cons.mp he with h1 | h1
      · rw [h1, h0] at hp; exact absurd hp (by decide)
      · simpa using ih ⟨e, h1, hp⟩

theorem updateF_player (fl : ℚ → ℚ) (inp : FrameInput) (s : State)
    (h : s.showCongratulations = false) :
    (UpdateGameplayScreenF fl inp s).player =
      if (collisionLoopF fl inp.dt (xAfterKeysF fl s inp) (collisionEntryF fl s inp)
          s.envElements).hitObstacle = false then
        { position := ⟨xAfterKeysF fl s inp,
            fl ((collisionLoopF fl inp.dt (xAfterKeysF fl s inp) (collisionEntryF fl s inp)
                s.envElements).y +
              fl ((collisionLoopF fl inp.dt (xAfterKeysF fl s inp) (collisionEntryF fl s inp)
                s.envElements).speed * inp.dt))⟩
          speed :=
            fl ((collisionLoopF fl inp.dt (xAfterKeysF fl s inp) (collisionEntryF fl s inp)
                s.envElements).speed + fl (gravity * inp.dt))
          canJump := false }
      else
        { position := ⟨xAfterKeysF fl s inp,
            (collisionLoopF fl inp.dt (xAfterKeysF fl s inp) (collisionEntryF fl s inp)
              s.envElements).y⟩
          speed :=
            (collisionLoopF fl inp.dt (xAfterKeysF fl s inp) (collisionEntryF fl s inp)
              s.envElements).speed
          canJump := true } := by
  simp only [UpdateGameplayScreenF, h, if_true]

theorem updateF_player_landed (fl : ℚ → ℚ) (h0 : fl 0 = 0) (inp : FrameInput) (s : State)
    (hl : s.showCongratulations = false)
    (hrep : ∀ e ∈ s.envElements, fl e.rect.y = e.rect.y) (e : EnvElement)
    (hfind : s.envElements.find? (landingTestF fl inp.dt (xAfterKeysF fl s inp)
      s.player.position.y (speedAfterStandingF fl s inp)) = some e) :
    (UpdateGameplayScreenF fl inp s).player = ⟨⟨xAfterKeysF fl s inp, e.rect.y⟩, 0, true⟩ := by
  have hloop := collisionLoopF_first_hit fl h0 inp.dt (xAfterKeysF fl s inp)
    (collisionEntryF fl s inp) s.envElements hrep e hfind
  rw [updateF_player fl inp s hl, hloop.1]
  simp

theorem updateF_player_airborne (fl : ℚ → ℚ) (inp : FrameInput) (s : State)
    (hl : s.showCongratulations = false)
    (hnone : ∀ e ∈ s.envElements, landingTestF fl inp.dt (xAfterKeysF fl s inp)
      s.player.position.y (speedAfterStandingF fl s inp) e = false) :
    (UpdateGameplayScreenF fl inp s).player =
      ⟨⟨xAfterKeysF fl s inp,
          fl (s.player.position.y + fl (speedAfterStandingF fl s inp * inp.dt))⟩,
        fl (speedAfterStandingF fl s inp + fl (gravity * inp.dt)), false⟩ := by
  have hloop := (collisionLoopF_no_hit fl inp.dt (xAfterKeysF fl s inp)
    (collisionEntryF fl s inp) s.envElements hnone).1
  rw [updateF_player fl inp s hl, hloop]
  simp [collisionEntryF]

/-- A rounded bound below the player's y passes no landing test. -/
theorem landingTestF_rising (fl : ℚ → ℚ) (dt x y speed : ℚ) (e : EnvElement)
    (h : fl (y + fl (speed * dt)) < y) : landingTestF fl dt x y speed e = false := by
  cases ht : landingTestF fl dt x y speed e with
  | false => rfl
  | true =>
    rw [landingTestF_iff] at ht
    obtain ⟨_, _, _, h1, h2⟩ := ht
    linarith

/-! ## Rounding to binary32 is monotone -/

theorem roundHalfEven_near (q : ℚ) : |q - roundHalfEven q| ≤ 1 / 2 := by
  have h1 : (⌊q⌋ : ℚ) ≤ q := Int.floor_le q
  have h2 : q < ⌊q⌋ + 1 := Int.lt_floor_add_one q
  unfold roundHalfEven
  split_ifs with c1 c2 c3
  · rw [abs_le]; constructor <;> linarith
  · rw [abs_le]; push_cast; constructor <;> linarith
  · rw [abs_le]; constructor <;> linarith
  · rw [abs_le]; push_cast; constructor <;> linarith

theorem roundHalfEven_mono {a b : ℚ} (h : a ≤ b) : roundHalfEven a ≤ roundHalfEven b := by
  by_contra hcon
  have hlt : roundHalfEven b + 1 ≤ roundHalfEven a := by omega
  have hq : ((roundHalfEven b : ℤ) : ℚ) + 1 ≤ roundHalfEven a := by exact_mod_cast hlt
  have ha := abs_le.mp (roundHalfEven_near a)
  have hb := abs_le.mp (roundHalfEven_near b)
  have hab : a = b := le_antisymm h (by linarith)
  subst hab
  omega

theorem roundHalfEven_intCast (n : ℤ) : roundHalfEven (n : ℚ) = n := by
  simp [roundHalfEven]

theorem bitLength_zero (fuel : Nat) : bitLength fuel 0 = 0 := by
  cases fuel <;> simp [bitLength]

theorem bitLength_spec (fuel : Nat) :
    ∀ n : Nat, n ≤ fuel →
      n < 2 ^ bitLength fuel n ∧ (0 < n → 2 ^ bitLength fuel n ≤ 2 * n) := by
  induction fuel with
  | zero =>
    intro n hn
    have : n = 0 := by omega
    subst this
    simp [bitLength]
  | succ fuel ih =>
    intro n hn
    by_cases h0 : n = 0
    · subst h0; simp [bitLength]
    · simp only [bitLength, h0, if_false]
      obtain ⟨i1, i2⟩ := ih (n / 2) (by omega)
      rw [pow_succ]
      constructor
      · omega
      · intro _
        by_cases h2 : n / 2 = 0
        · rw [h2, bitLength_zero]
          omega
        · have := i2 (by omega)
          omega

theorem floorLog2_spec (q : ℚ) (hq : q ≠ 0) :
    (2 : ℚ) ^ floorLog2 q ≤ |q| ∧ |q| < (2 : ℚ) ^ (floorLog2 q + 1) := by
  have hn0 : 0 < q.num.natAbs := Int.natAbs_pos.mpr (Rat.num_ne_zero.mpr hq)
  have hd0 : 0 < q.den := q.den_pos
  obtain ⟨n1, n2⟩ := bitLength_spec q.num.natAbs q.num.natAbs le_rfl
  obtain ⟨d1, d2⟩ := bitLength_spec q.den q.den le_rfl
  have n2 := n2 hn0
  have d2 := d2 hd0
  have habs : |q| = (q.num.natAbs : ℚ) / (q.den : ℚ) := by
    conv_lhs => rw [← Rat.num_div_den q]
    rw [abs_div, Nat.abs_cast, Nat.cast_natAbs, Int.cast_abs]
  have hdq : (0 : ℚ) < (q.den : ℚ) := by exact_mod_cast hd0
  have hnq : (0 : ℚ) < (q.num.natAbs : ℚ) := by exact_mod_cast hn0
  have n1q : (q.num.natAbs : ℚ) < 2 ^ bitLength q.num.natAbs q.num.natAbs := by exact_mod_cast n1
  have n2q : (2 : ℚ) ^ bitLength q.num.natAbs q.num.natAbs ≤ 2 * (q.num.natAbs : ℚ) := by
    exact_mod_cast n2
  have d1q : (q.den : ℚ) < 2 ^ bitLength q.den q.den := by exact_mod_cast d1
  have d2q : (2 : ℚ) ^ bitLength q.den q.den ≤ 2 * (q.den : ℚ) := by exact_mod_cast d2
  have hpa : (0 : ℚ) < 2 ^ bitLength q.num.natAbs q.num.natAbs := by positivity
  have hpb : (0 : ℚ) < 2 ^ bitLength q.den q.den := by positivity
  have hz : ∀ k : ℤ, (2 : ℚ) ^ ((bitLength q.num.natAbs q.num.natAbs : ℤ) -
      (bitLength q.den q.den : ℤ) + k) =
      2 ^ bitLength q.num.natAbs q.num.natAbs / 2 ^ bitLength q.den q.den * 2 ^ k := by
    intro k
    rw [zpow_add₀ (by norm_num), zpow_sub₀ (by norm_num), zpow_natCast, zpow_natCast]
  have hup : |q| < (2 : ℚ) ^ ((bitLength q.num.natAbs q.num.natAbs : ℤ) -
      (bitLength q.den q.den : ℤ) + 1) := by
    rw [hz 1, habs, zpow_one, div_mul_eq_mul_div, div_lt_div_iff₀ hdq hpb]
    nlinarith
  have hlo : (2 : ℚ) ^ ((bitLength q.num.natAbs q.num.natAbs : ℤ) -
      (bitLength q.den q.den : ℤ) + (-1)) < |q| := by
    rw [hz (-1), habs, zpow_neg_one, div_mul_eq_mul_div, div_lt_div_iff₀ hpb hdq]
    nlinarith
  unfold floorLog2
  split_ifs with hc
  · exact ⟨hc, hup⟩
  · refine ⟨le_of_lt ?_, ?_⟩
    · rw [sub_eq_add_neg]; exact hlo
    · rw [sub_add_cancel]; exact lt_of_not_le hc


theorem f32_zero : f32 0 = 0 := by simp [f32]

theorem ulp32_pos (q : ℚ) : 0 < ulp32 q := by
  unfold ulp32
  exact zpow_pos (by norm_num) _

theorem floorLog2_mono {a b : ℚ} (ha : a ≠ 0) (hb : b ≠ 0) (h : |a| ≤ |b|) :
    floorLog2 a ≤ floorLog2 b := by
  have h1 := (floorLog2_spec a ha).1
  have h2 := (floorLog2_spec b hb).2
  have h3 : (2 : ℚ) ^ floorLog2 a < (2 : ℚ) ^ (floorLog2 b + 1) := by linarith
  have h4 := (zpow_lt_zpow_iff_right₀ (by norm_num : (1 : ℚ) < 2)).mp h3
  omega

/-- The value `2 ^ (e + 1)` in units of `2 ^ (e - 23)`. -/
theorem two_zpow_split (e : ℤ) (k : ℕ) :
    (2 : ℚ) ^ (e - 23 + k) = ((2 ^ k : ℤ) : ℚ) * (2 : ℚ) ^ (e - 23) := by
  rw [zpow_add₀ (by norm_num), zpow_natCast]
  push_cast
  ring

theorem f32_nonneg {q : ℚ} (hq : 0 ≤ q) : 0 ≤ f32 q := by
  unfold f32
  split_ifs
  · exact le_refl _
  · have h : (0 : ℚ) ≤ q / ulp32 q := div_nonneg hq (le_of_lt (ulp32_pos q))
    have h2 := roundHalfEven_mono h
    rw [show ((0 : ℚ)) = ((0 : ℤ) : ℚ) by norm_num, roundHalfEven_intCast] at h2
    exact mul_nonneg (by exact_mod_cast h2) (le_of_lt (ulp32_pos q))

theorem f32_nonpos {q : ℚ} (hq : q ≤ 0) : f32 q ≤ 0 := by
  unfold f32
  split_ifs
  · exact le_refl _
  · have h : q / ulp32 q ≤ (0 : ℚ) := div_nonpos_of_nonpos_of_nonneg hq (le_of_lt (ulp32_pos q))
    have h2 := roundHalfEven_mono h
    rw [show ((0 : ℚ)) = ((0 : ℤ) : ℚ) by norm_num, roundHalfEven_intCast] at h2
    exact mul_nonpos_of_nonpos_of_nonneg (by exact_mod_cast h2) (le_of_lt (ulp32_pos q))

/-- Bounds of `f32 q` by the powers of two around `q`, for `q ≠ 0`. -/
theorem f32_bounds (q : ℚ) (hq : q ≠ 0) :
    (0 < q → f32 q ≤ (2 : ℚ) ^ (max (floorLog2 q) (-126) + 1)) ∧
    (0 < q → -126 ≤ floorLog2 q → (2 : ℚ) ^ floorLog2 q ≤ f32 q) ∧
    (q < 0 → -(2 : ℚ) ^ (max (floorLog2 q) (-126) + 1) ≤ f32 q) ∧
    (q < 0 → -126 ≤ floorLog2 q → f32 q ≤ -(2 : ℚ) ^ floorLog2 q) := by
  obtain ⟨s1, s2⟩ := floorLog2_spec q hq
  have hu := ulp32_pos q
  have hup : (2 : ℚ) ^ (floorLog2 q + 1) ≤ (2 : ℚ) ^ (max (floorLog2 q) (-126) + 1) :=
    zpow_le_zpow_right₀ (by norm_num) (by omega)
  have htop : (2 : ℚ) ^ (max (floorLog2 q) (-126) + 1) = ((2 ^ 24 : ℤ) : ℚ) * ulp32 q := by
    rw [ulp32, ← two_zpow_split]
    congr 1
    push_cast
    ring
  have hf : f32 q = (roundHalfEven (q / ulp32 q) : ℚ) * ulp32 q := by
    simp [f32, hq]
  refine ⟨?_, ?_, ?_, ?_⟩
  · intro hpos
    rw [abs_of_pos hpos] at s2
    have h1 : q / ulp32 q ≤ ((2 ^ 24 : ℤ) : ℚ) := by
      rw [div_le_iff₀ hu, ← htop]; linarith
    have h2 := roundHalfEven_mono h1
    rw [roundHalfEven_intCast] at h2
    rw [hf, htop]
    exact mul_le_mul_of_nonneg_right (by exact_mod_cast h2) (le_of_lt hu)
  · intro hpos hnorm
    rw [abs_of_pos hpos] at s1
    have hbot : (2 : ℚ) ^ floorLog2 q = ((2 ^ 23 : ℤ) : ℚ) * ulp32 q := by
      rw [ulp32, max_eq_left hnorm, ← two_zpow_split]
      congr 1
      push_cast
      ring
    have h1 : ((2 ^ 23 : ℤ) : ℚ) ≤ q / ulp32 q := by
      rw [le_div_iff₀ hu, ← hbot]; exact s1
    have h2 := roundHalfEven_mono h1
    rw [roundHalfEven_intCast] at h2
    rw [hf, hbot]
    exact mul_le_mul_of_nonneg_right (by exact_mod_cast h2) (le_of_lt hu)
  · intro hneg
    rw [abs_of_neg hneg] at s2
    have h1 : ((-(2 ^ 24) : ℤ) : ℚ) ≤ q / ulp32 q := by
      rw [le_div_iff₀ hu]
      push_cast
      have : (2 : ℚ) ^ (max (floorLog2 q) (-126) + 1) = (2 ^ 24 : ℚ) * ulp32 q := by
        rw [htop]; push_cast; ring
      linarith
    have h2 := roundHalfEven_mono h1
    rw [roundHalfEven_intCast] at h2
    have h3 : ((-(2 ^ 24) : ℤ) : ℚ) ≤ (roundHalfEven (q / ulp32 q) : ℚ) := by exact_mod_cast h2
    rw [hf, htop]
    have := mul_le_mul_of_nonneg_right h3 (le_of_lt hu)
    push_cast at this ⊢
    linarith
  · intro hneg hnorm
    rw [abs_of_neg hneg] at s1
    have hbot : (2 : ℚ) ^ floorLog2 q = ((2 ^ 23 : ℤ) : ℚ) * ulp32 q := by
      rw [ulp32, max_eq_left hnorm, ← two_zpow_split]
      congr 1
      push_cast
      ring
    have h1 : q / ulp32 q ≤ ((-(2 ^ 23) : ℤ) : ℚ) := by
      rw [div_le_iff₀ hu]
      push_cast
      have : (2 : ℚ) ^ floorLog2 q = (2 ^ 23 : ℚ) * ulp32 q := by
        rw [hbot]; push_cast; ring
      linarith
    have h2 := roundHalfEven_mono h1
    rw [roundHalfEven_intCast] at h2
    have h3 : (roundHalfEven (q / ulp32 q) : ℚ) ≤ ((-(2 ^ 23) : ℤ) : ℚ) := by exact_mod_cast h2
    rw [hf, hbot]
    have := mul_le_mul_of_nonneg_right h3 (le_of_lt hu)
    push_cast at this ⊢
    linarith

theorem f32_mono_same_ulp {a b : ℚ} (ha : a ≠ 0) (hb : b ≠ 0) (h : a ≤ b)
    (hu : ulp32 a = ulp32 b) : f32 a ≤ f32 b := by
  have h1 : a / ulp32 b ≤ b / ulp32 b := div_le_div_of_nonneg_right h (le_of_lt (ulp32_pos b))
  have h2 := roundHalfEven_mono h1
  simp only [f32, ha, hb, if_false, hu]
  exact mul_le_mul_of_nonneg_right (by exact_mod_cast h2) (le_of_lt (ulp32_pos b))

/-- Rounding to binary32 is monotone. -/
theorem f32_monotone : Monotone f32 := by
  intro a b h
  rcases lt_trichotomy a 0 with ha | ha | ha
  · rcases lt_trichotomy b 0 with hb | hb | hb
    · have hab : |b| ≤ |a| := by rw [abs_of_neg ha, abs_of_neg hb]; linarith
      have he := floorLog2_mono (ne_of_lt hb) (ne_of_lt ha) hab
      by_cases heq : max (floorLog2 a) (-126) = max (floorLog2 b) (-126)
      · exact f32_mono_same_ulp (ne_of_lt ha) (ne_of_lt hb) h (by rw [ulp32, ulp32, heq])
      · have hlt : max (floorLog2 b) (-126) < max (floorLog2 a) (-126) := by omega
        have hnorm : -126 ≤ floorLog2 a := by omega
        have hmax : max (floorLog2 a) (-126) = floorLog2 a := max_eq_left hnorm
        have h1 := (f32_bounds a (ne_of_lt ha)).2.2.2 ha hnorm
        have h2 := (f32_bounds b (ne_of_lt hb)).2.2.1 hb
        have h3 : (2 : ℚ) ^ (max (floorLog2 b) (-126) + 1) ≤ (2 : ℚ) ^ floorLog2 a :=
          zpow_le_zpow_right₀ (by norm_num) (by omega)
        linarith
    · rw [hb, f32_zero]; exact f32_nonpos (le_of_lt ha)
    · exact le_trans (f32_nonpos (le_of_lt ha)) (f32_nonneg (le_of_lt hb))
  · rw [ha, f32_zero]; exact f32_nonneg (by rw [← ha]; exact h)
  · have hb : 0 < b := lt_of_lt_of_le ha h
    have hab : |a| ≤ |b| := by rw [abs_of_pos ha, abs_of_pos hb]; exact h
    have he := floorLog2_mono (ne_of_gt ha) (ne_of_gt hb) hab
    by_cases heq : max (floorLog2 a) (-126) = max (floorLog2 b) (-126)
    · exact f32_mono_same_ulp (ne_of_gt ha) (ne_of_gt hb) h (by rw [ulp32, ulp32, heq])
    · have hlt : max (floorLog2 a) (-126) < max (floorLog2 b) (-126) := by omega
      have hnorm : -126 ≤ floorLog2 b := by omega
      have h1 := (f32_bounds a (ne_of_gt ha)).1 ha
      have h2 := (f32_bounds b (ne_of_gt hb)).2.1 hb hnorm
      have h3 : (2 : ℚ) ^ (max (floorLog2 a) (-126) + 1) ≤ (2 : ℚ) ^ floorLog2 b :=
        zpow_le_zpow_right₀ (by norm_num) (by omega)
      linarith

/-! ## Free fall, in the code's float arithmetic -/

/-- C3 (as the code behaves). In an unlatched update with `dt > 0` in which neither the
standing test nor the landing test passes for any element, in float arithmetic with
rounding `fl`: the new speed is the rounded `speed + gravity * dt`, the new y is the
rounded `y + speed * dt` with the speed from before the gravity step, and `canJump` is
false. The new speed is never less than the old one (for a monotone rounding that keeps
0 and the old speed, as binary32 does); it is strictly greater when nothing is rounded. -/
theorem C3_free_fall (fl : ℚ → ℚ) (inp : FrameInput) (s : State)
    (hl : s.showCongratulations = false) (hdt : 0 < inp.dt)
    (hstand : ∀ e ∈ s.envElements, standingTestF fl inp.dt (xAfterKeysF fl s inp)
      s.player.position.y s.player.speed e = false)
    (hland : ∀ e ∈ s.envElements, landingTestF fl inp.dt (xAfterKeysF fl s inp)
      s.player.position.y s.player.speed e = false) :
    (UpdateGameplayScreenF fl inp s).player.speed =
      fl (s.player.speed + fl (gravity * inp.dt)) ∧
    (UpdateGameplayScreenF fl inp s).player.position.y =
      fl (s.player.position.y + fl (s.player.speed * inp.dt)) ∧
    (UpdateGameplayScreenF fl inp s).player.canJump = false ∧
    (Monotone fl → fl 0 = 0 → fl s.player.speed = s.player.speed →
      s.player.speed ≤ (UpdateGameplayScreenF fl inp s).player.speed) ∧
    ((∀ q, fl q = q) →
      s.player.speed < (UpdateGameplayScreenF fl inp s).player.speed) := by
  have hs := standingOnPlatformF_false fl _ _ _ _ _ hstand
  have hspeed : speedAfterStandingF fl s inp = s.player.speed := by
    simp [speedAfterStandingF, hs]
  have hplayer := updateF_player_airborne fl inp s hl (by rw [hspeed]; exact hland)
  rw [hspeed] at hplayer
  rw [hplayer]
  have hg : (0 : ℚ) < (gravity : ℚ) * inp.dt := mul_pos (by norm_num [gravity]) hdt
  refine ⟨rfl, rfl, rfl, ?_, ?_⟩
  · intro hmono h0 hrep
    have h1 : 0 ≤ fl (gravity * inp.dt) := by
      have := hmono (le_of_lt hg)
      rwa [h0] at this
    have h2 := hmono (show s.player.speed ≤ s.player.speed + fl (gravity * inp.dt) by linarith)
    rw [hrep] at h2
    exact h2
  · intro hid
    simp only [hid]
    linarith

theorem C3_free_fall_witness :
    slowFallState.showCongratulations = false ∧ 0 < frame64.dt ∧
    (∀ e ∈ slowFallState.envElements, standingTestF f32 frame64.dt
      (xAfterKeysF f32 slowFallState frame64) slowFallState.player.position.y
      slowFallState.player.speed e = false) ∧
    (∀ e ∈ slowFallState.envElements, landingTestF f32 frame64.dt
      (xAfterKeysF f32 slowFallState frame64) slowFallState.player.position.y
      slowFallState.player.speed e = false) ∧
    Monotone f32 ∧ f32 0 = 0 ∧ f32 slowFallState.player.speed = slowFallState.player.speed ∧
    (UpdateGameplayScreenF f32 frame64 slowFallState).player.speed = 25 ∧
    (UpdateGameplayScreenF f32 frame64 slowFallState).player.speed =
      f32 (slowFallState.player.speed + f32 (gravity * frame64.dt)) ∧
    (UpdateGameplayScreenF f32 frame64 slowFallState).player.position.y =
      f32 (slowFallState.player.position.y + f32 (slowFallState.player.speed * frame64.dt)) ∧
    (UpdateGameplayScreenF f32 frame64 slowFallState).player.canJump = false ∧
    slowFallState.player.speed ≤ (UpdateGameplayScreenF f32 frame64 slowFallState).player.speed :=
  have hdt : 0 < frame64.dt := by decide!
  have hstand : ∀ e ∈ slowFallState.envElements, standingTestF f32 frame64.dt
      (xAfterKeysF f32 slowFallState frame64) slowFallState.player.position.y
      slowFallState.player.speed e = false := by decide!
  have hland : ∀ e ∈ slowFallState.envElements, landingTestF f32 frame64.dt
      (xAfterKeysF f32 slowFallState frame64) slowFallState.player.position.y
      slowFallState.player.speed e = false := by decide!
  have hrep : f32 slowFallState.player.speed = slowFallState.player.speed := by decide!
  have h := C3_free_fall f32 frame64 slowFallState rfl hdt hstand hland
  ⟨rfl, hdt, hstand, hland, f32_monotone, f32_zero, hrep, by decide!, h.1, h.2.1, h.2.2.1,
    h.2.2.2.1 f32_monotone f32_zero hrep⟩

/-- C3 as stated fails in the code's binary32 arithmetic: with the player airborne at
(400, 280), speed 12.5 and `dt = 2 ^ (-40) > 0`, neither test passes for any element,
and the new speed `12.5 + 800 * 2 ^ (-40)` rounds back to 12.5: it is not strictly
greater than the old speed. -/
theorem C3_counterexample :
    slowFallState.showCongratulations = false ∧ 0 < tinyFrame40.dt ∧
    (∀ e ∈ slowFallState.envElements, standingTestF f32 tinyFrame40.dt
      (xAfterKeysF f32 slowFallState tinyFrame40) slowFallState.player.position.y
      slowFallState.player.speed e = false) ∧
    (∀ e ∈ slowFallState.envElements, landingTestF f32 tinyFrame40.dt
      (xAfterKeysF f32 slowFallState tinyFrame40) slowFallState.player.position.y
      slowFallState.player.speed e = false) ∧
    f32 tinyFrame40.dt = tinyFrame40.dt ∧
    f32 slowFallState.player.speed = slowFallState.player.speed ∧
    (UpdateGameplayScreenF f32 tinyFrame40 slowFallState).player.speed = 25 / 2 ∧
    ¬ (slowFallState.player.speed <
      (UpdateGameplayScreenF f32 tinyFrame40 slowFallState).player.speed) ∧
    (UpdateGameplayScreenF f32 tinyFrame40 slowFallState).player.speed ≠
      slowFallState.player.speed + gravity * tinyFrame40.dt := by
  decide!

/-! ## The auto-jump, in the code's float arithmetic -/

/-- C17 (as the code behaves). In an unlatched update, in float arithmetic with rounding
`fl`, if some blocking element spans the player's x (after the key steps) and its y
equals the computed `y + speed * dt`, and the computed `y - playerJumpSpeed * dt` is
strictly less than y, then the loop registers no landing and after the update the speed
is the computed `-playerJumpSpeed + gravity * dt` and y is the computed
`y - playerJumpSpeed * dt`, strictly less than the old y. When nothing is rounded the
condition on the computed y holds for every `dt > 0`. -/
theorem C17_auto_jump (fl : ℚ → ℚ) (inp : FrameInput) (s : State)
    (hl : s.showCongratulations = false)
    (h : ∃ e ∈ s.envElements, e.blocking ≠ 0 ∧ e.rect.x ≤ xAfterKeysF fl s inp ∧
      xAfterKeysF fl s inp ≤ fl (e.rect.x + e.rect.width) ∧
      e.rect.y = fl (s.player.position.y + fl (s.player.speed * inp.dt))) :
    (fl (s.player.position.y + fl (-(playerJumpSpeed : ℚ) * inp.dt)) < s.player.position.y →
      collisionHitsF fl inp.dt (xAfterKeysF fl s inp) (collisionEntryF fl s inp)
        s.envElements = [] ∧
      (UpdateGameplayScreenF fl inp s).player.speed =
        fl (-(playerJumpSpeed : ℚ) + fl (gravity * inp.dt)) ∧
      (UpdateGameplayScreenF fl inp s).player.position.y =
        fl (s.player.position.y + fl (-(playerJumpSpeed : ℚ) * inp.dt)) ∧
      (UpdateGameplayScreenF fl inp s).player.position.y < s.player.position.y) ∧
    ((∀ q, fl q = q) → 0 < inp.dt →
      fl (s.player.position.y + fl (-(playerJumpSpeed : ℚ) * inp.dt)) <
        s.player.position.y) := by
  have hstand : standingOnPlatformF fl inp.dt (xAfterKeysF fl s inp) s.player.position.y
      s.player.speed s.envElements = true := by
    obtain ⟨e, he, hb, hx1, hx2, hy⟩ := h
    exact standingOnPlatformF_true fl _ _ _ _ _
      ⟨e, he, (standingTestF_iff fl _ _ _ _ e).mpr ⟨hb, hx1, hx2, hy⟩⟩
  have hspeed : speedAfterStandingF fl s inp = -(playerJumpSpeed : ℚ) := by
    simp [speedAfterStandingF, hstand]
  constructor
  · intro hbound
    have hnone : ∀ e ∈ s.envElements, landingTestF fl inp.dt (xAfterKeysF fl s inp)
        s.player.position.y (speedAfterStandingF fl s inp) e = false := by
      intro e _
      rw [hspeed]
      exact landingTestF_rising fl _ _ _ _ e hbound
    have hhits := (collisionLoopF_no_hit fl inp.dt (xAfterKeysF fl s inp)
      (collisionEntryF fl s inp) s.envElements hnone).2
    rw [updateF_player_airborne fl inp s hl hnone, hspeed]
    exact ⟨hhits, rfl, rfl, hbound⟩
  · intro hid hdt
    simp only [hid]
    have : (0 : ℚ) < (playerJumpSpeed : ℚ) * inp.dt :=
      mul_pos (by norm_num [playerJumpSpeed]) hdt
    linarith

theorem C17_auto_jump_witness :
    restingState.showCongratulations = false ∧
    (∃ e ∈ restingState.envElements, e.blocking ≠ 0 ∧
      e.rect.x ≤ xAfterKeysF f32 restingState frame64 ∧
      xAfterKeysF f32 restingState frame64 ≤ f32 (e.rect.x + e.rect.width) ∧
      e.rect.y = f32 (restingState.player.position.y +
        f32 (restingState.player.speed * frame64.dt))) ∧
    f32 (restingState.player.position.y + f32 (-(playerJumpSpeed : ℚ) * frame64.dt)) <
      restingState.player.position.y ∧
    collisionHitsF f32 frame64.dt (xAfterKeysF f32 restingState frame64)
      (collisionEntryF f32 restingState frame64) restingState.envElements = [] ∧
    (UpdateGameplayScreenF f32 frame64 restingState).player.speed =
      f32 (-(playerJumpSpeed : ℚ) + f32 (gravity * frame64.dt)) ∧
    (UpdateGameplayScreenF f32 frame64 restingState).player.position.y =
      f32 (restingState.player.position.y + f32 (-(playerJumpSpeed : ℚ) * frame64.dt)) ∧
    (UpdateGameplayScreenF f32 frame64 restingState).player.position.y <
      restingState.player.position.y :=
  have h : ∃ e ∈ restingState.envElements, e.blocking ≠ 0 ∧
      e.rect.x ≤ xAfterKeysF f32 restingState frame64 ∧
      xAfterKeysF f32 restingState frame64 ≤ f32 (e.rect.x + e.rect.width) ∧
      e.rect.y = f32 (restingState.player.position.y +
        f32 (restingState.player.speed * frame64.dt)) := by decide!
  have hb : f32 (restingState.player.position.y + f32 (-(playerJumpSpeed : ℚ) * frame64.dt)) <
      restingState.player.position.y := by decide!
  ⟨rfl, h, hb, (C17_auto_jump f32 frame64 restingState rfl h).1 hb⟩

/-- C17 as stated fails in the code's binary32 arithmetic: the player rests on the floor
(x = 400, y = 600, speed 0) and `dt = 2 ^ (-30) > 0`; the floor is blocking, spans x and
its y equals `y + speed * dt`, so the standing check sets the speed to -650; but
`600 - 650 * 2 ^ (-30)` rounds to 600, the landing test passes on the floor, and the
update ends with speed 0 (not `-650 + 800 * dt`), y still 600 and one landing sound. -/
theorem C17_counterexample :
    restingState.showCongratulations = false ∧ 0 < tinyFrame30.dt ∧
    f32 tinyFrame30.dt = tinyFrame30.dt ∧
    (∃ e ∈ restingState.envElements, e.blocking ≠ 0 ∧
      e.rect.x ≤ xAfterKeysF f32 restingState tinyFrame30 ∧
      xAfterKeysF f32 restingState tinyFrame30 ≤ e.rect.x + e.rect.width ∧
      e.rect.y = restingState.player.position.y +
        restingState.player.speed * tinyFrame30.dt ∧
      e.rect.y = f32 (restingState.player.position.y +
        f32 (restingState.player.speed * tinyFrame30.dt))) ∧
    speedAfterStandingF f32 restingState tinyFrame30 = -(playerJumpSpeed : ℚ) ∧
    f32 (restingState.player.position.y + f32 (-(playerJumpSpeed : ℚ) * tinyFrame30.dt)) =
      600 ∧
    collisionHitsF f32 tinyFrame30.dt (xAfterKeysF f32 restingState tinyFrame30)
      (collisionEntryF f32 restingState tinyFrame30) restingState.envElements ≠ [] ∧
    (UpdateGameplayScreenF f32 tinyFrame30 restingState).player.speed = 0 ∧
    (UpdateGameplayScreenF f32 tinyFrame30 restingState).player.speed ≠
      -(playerJumpSpeed : ℚ) + gravity * tinyFrame30.dt ∧
    (UpdateGameplayScreenF f32 tinyFrame30 restingState).player.speed ≠
      f32 (-(playerJumpSpeed : ℚ) + f32 (gravity * tinyFrame30.dt)) ∧
    (UpdateGameplayScreenF f32 tinyFrame30 restingState).player.position.y = 600 ∧
    ¬ ((UpdateGameplayScreenF f32 tinyFrame30 restingState).player.position.y <
      restingState.player.position.y) ∧
    (UpdateGameplayScreenF f32 tinyFrame30 restingState).soundsPlayed =
      restingState.soundsPlayed + 1 := by
  decide!

/-! ## Passing platforms vertically, in the code's float arithmetic -/

/-- C14 (as the code behaves). In an unlatched update, in float arithmetic with rounding
`fl` (which keeps 0 and the elements' y), for a blocking element whose horizontal span
contains the player's x at the collision check: if the player is at or above the element
before the update (`y ≤ element y`) and no element passing the landing test lies further
down than this one, then the player is not strictly below the element after the update.
Upward motion is not blocked: when the computed `y + speed * dt` is strictly less than y,
no landing is registered and the new y is that computed value. -/
theorem C14_one_way_platforms (fl : ℚ → ℚ) (inp : FrameInput) (s : State)
    (hl : s.showCongratulations = false) (h0 : fl 0 = 0)
    (hrep : ∀ e1 ∈ s.envElements, fl e1.rect.y = e1.rect.y)
    (e : EnvElement) (he : e ∈ s.envElements)
    (hb : e.blocking ≠ 0) (hx1 : e.rect.x ≤ xAfterKeysF fl s inp)
    (hx2 : xAfterKeysF fl s inp ≤ fl (e.rect.x + e.rect.width)) :
    (s.player.position.y ≤ e.rect.y →
      (∀ e1 ∈ s.envElements, landingTestF fl inp.dt (xAfterKeysF fl s inp)
        s.player.position.y (speedAfterStandingF fl s inp) e1 = true →
        e1.rect.y ≤ e.rect.y) →
      (UpdateGameplayScreenF fl inp s).player.position.y ≤ e.rect.y) ∧
    (fl (s.player.position.y + fl (speedAfterStandingF fl s inp * inp.dt)) <
        s.player.position.y →
      collisionHitsF fl inp.dt (xAfterKeysF fl s inp) (collisionEntryF fl s inp)
        s.envElements = [] ∧
      (UpdateGameplayScreenF fl inp s).player.position.y =
        fl (s.player.position.y + fl (speedAfterStandingF fl s inp * inp.dt))) := by
  constructor
  · intro hy hlow
    cases hfind : s.envElements.find? (landingTestF fl inp.dt (xAfterKeysF fl s inp)
        s.player.position.y (speedAfterStandingF fl s inp)) with
    | some e1 =>
      rw [updateF_player_landed fl h0 inp s hl hrep e1 hfind]
      exact hlow e1 (List.mem_of_find?_eq_some hfind) (List.find?_some hfind)
    | none =>
      have hnone : ∀ e1 ∈ s.envElements, landingTestF fl inp.dt (xAfterKeysF fl s inp)
          s.player.position.y (speedAfterStandingF fl s inp) e1 = false := by
        intro e1 he1
        have := List.find?_eq_none.mp hfind e1 he1
        simpa using this
      rw [updateF_player_airborne fl inp s hl hnone]
      by_contra hcon
      have hpass : landingTestF fl inp.dt (xAfterKeysF fl s inp) s.player.position.y
          (speedAfterStandingF fl s inp) e = true := by
        rw [landingTestF_iff]
        simp only at hcon
        exact ⟨hb, hx1, hx2, hy, by linarith⟩
      rw [hnone e he] at hpass
      exact absurd hpass (by decide)
  · intro hbound
    have hnone : ∀ e1 ∈ s.envElements, landingTestF fl inp.dt (xAfterKeysF fl s inp)
        s.player.position.y (speedAfterStandingF fl s inp) e1 = false :=
      fun e1 _ => landingTestF_rising fl _ _ _ _ e1 hbound
    refine ⟨(collisionLoopF_no_hit fl inp.dt (xAfterKeysF fl s inp) (collisionEntryF fl s inp)
      s.envElements hnone).2, ?_⟩
    rw [updateF_player_airborne fl inp s hl hnone]

theorem C14_one_way_platforms_witness :
    aboveFloorState.showCongratulations = false ∧ f32 0 = 0 ∧
    (∀ e1 ∈ aboveFloorState.envElements, f32 e1.rect.y = e1.rect.y) ∧
    initElement sampleInit 0 ∈ aboveFloorState.envElements ∧
    (initElement sampleInit 0).blocking ≠ 0 ∧
    (initElement sampleInit 0).rect.x ≤ xAfterKeysF f32 aboveFloorState frame64 ∧
    xAfterKeysF f32 aboveFloorState frame64 ≤
      f32 ((initElement sampleInit 0).rect.x + (initElement sampleInit 0).rect.width) ∧
    aboveFloorState.player.position.y ≤ (initElement sampleInit 0).rect.y ∧
    (∀ e1 ∈ aboveFloorState.envElements, landingTestF f32 frame64.dt
      (xAfterKeysF f32 aboveFloorState frame64) aboveFloorState.player.position.y
      (speedAfterStandingF f32 aboveFloorState frame64) e1 = true →
      e1.rect.y ≤ (initElement sampleInit 0).rect.y) ∧
    (UpdateGameplayScreenF f32 frame64 aboveFloorState).player.position.y ≤
      (initElement sampleInit 0).rect.y :=
  have hrep : ∀ e1 ∈ aboveFloorState.envElements, f32 e1.rect.y = e1.rect.y := by decide!
  have hmem : initElement sampleInit 0 ∈ aboveFloorState.envElements := by decide!
  have hb : (initElement sampleInit 0).blocking ≠ 0 := by decide!
  have hx1 : (initElement sampleInit 0).rect.x ≤ xAfterKeysF f32 aboveFloorState frame64 := by
    decide!
  have hx2 : xAfterKeysF f32 aboveFloorState frame64 ≤
      f32 ((initElement sampleInit 0).rect.x + (initElement sampleInit 0).rect.width) := by
    decide!
  have hy : aboveFloorState.player.position.y ≤ (initElement sampleInit 0).rect.y := by
    decide!
  have hlow : ∀ e1 ∈ aboveFloorState.envElements, landingTestF f32 frame64.dt
      (xAfterKeysF f32 aboveFloorState frame64) aboveFloorState.player.position.y
      (speedAfterStandingF f32 aboveFloorState frame64) e1 = true →
      e1.rect.y ≤ (initElement sampleInit 0).rect.y := by decide!
  ⟨rfl, f32_zero, hrep, hmem, hb, hx1, hx2, hy, hlow,
    (C14_one_way_platforms f32 frame64 aboveFloorState rfl f32_zero hrep
      (initElement sampleInit 0) hmem hb hx1 hx2).1 hy hlow⟩

/-- C14 as stated fails in both directions, in the code's binary32 arithmetic. Upward:
in the sample layout the middle element (blocking, y = 400, x from 350 to 450) spans the
player's x = 400; the player is below it (y = 405 ≥ 400) moving up at 650 px/s, and after
one unlatched update at `dt = 1/64` the player is strictly above it
(y = 12635/32 < 400). Downward with two elements inside the distance travelled: the
player is above the middle element (y = 390 ≤ 400) falling at 500 px/s, and after one
unlatched update at `dt = 1/2` the player is on the floor, strictly below the middle
element (y = 600 > 400). -/
theorem C14_counterexample :
    (risingState.showCongratulations = false ∧ 0 ≤ frame64.dt ∧
      initElement sampleInit 1 ∈ risingState.envElements ∧
      (initElement sampleInit 1).blocking ≠ 0 ∧
      (initElement sampleInit 1).rect.x ≤ xAfterKeysF f32 risingState frame64 ∧
      xAfterKeysF f32 risingState frame64 ≤
        (initElement sampleInit 1).rect.x + (initElement sampleInit 1).rect.width ∧
      risingState.player.position.y ≥ (initElement sampleInit 1).rect.y ∧
      (UpdateGameplayScreenF f32 frame64 risingState).player.position.y = 12635 / 32 ∧
      (UpdateGameplayScreenF f32 frame64 risingState).player.position.y <
        (initElement sampleInit 1).rect.y) ∧
    (fastFallState.showCongratulations = false ∧ 0 ≤ hitchFrame.dt ∧
      initElement sampleInit 1 ∈ fastFallState.envElements ∧
      (initElement sampleInit 1).blocking ≠ 0 ∧
      (initElement sampleInit 1).rect.x ≤ xAfterKeysF f32 fastFallState hitchFrame ∧
      xAfterKeysF f32 fastFallState hitchFrame ≤
        (initElement sampleInit 1).rect.x + (initElement sampleInit 1).rect.width ∧
      fastFallState.player.position.y ≤ (initElement sampleInit 1).rect.y ∧
      (UpdateGameplayScreenF f32 hitchFrame fastFallState).player.position.y = 600 ∧
      (UpdateGameplayScreenF f32 hitchFrame fastFallState).player.position.y >
        (initElement sampleInit 1).rect.y) := by
  decide!

end GooGetaway
